import Mathlib

set_option maxHeartbeats 1000000

/-!
Shallow embedding of `src/pkix/pem_import.c` (CycloneCRYPTO PEM import
functions).

The file under verification is a family of PEM key-import routines.  Each
routine resolves a container label via the external armor decoder
`pemDecodeFile` (two-phase: a sizing pass with a NULL output buffer, then a
filling pass into an allocated buffer), optionally decrypts the payload
(legacy header-marker convention via `pemDecryptMessage`, or PKCS#8 wrapped
convention via `pkcs8ParseEncryptedPrivateKeyInfo` + `pkcs5Decrypt`), then
delegates structural parsing and key materialization to external parsers,
and on any failure tears the caller's output key object down with the
appropriate free routine before returning.

External collaborators (armor decoder, ASN.1 decoder, parsers, decryption
primitives, the allocator) live outside the repository slice under
verification; they are modelled as an explicit environment `Env` of
unconstrained functions.  For one call, the input text is fixed, so the
behaviour of every collaborator on that input is captured by the
environment; quantifying over `Env` quantifies over all inputs.  Key
objects and parsed structures are modelled as opaque tokens; a free routine
resets a key object to the empty value `[]`, exactly as the C free
routines reset the key structure's fields.  Each embedded function also
returns a trace of the collaborator calls it made, used to state ordering
and mutual-exclusion properties of the pipeline.

Compile-time configuration: the embedding models the build with
`RSA_SUPPORT`, `DSA_SUPPORT`, `EC_SUPPORT`, `ED25519_SUPPORT` and
`DH_SUPPORT` enabled; `PEM_ENCRYPTED_KEY_SUPPORT` is carried in the
environment (`pemEncryptedKeySupport`) because one claim is about the
build in which it is disabled.
-/

/-- Error codes of `error_t` used by `pem_import.c` (plus a constructor for
codes produced by external collaborators that the module merely
propagates). -/
inductive error_t where
  | NO_ERROR
  | ERROR_INVALID_PARAMETER
  | ERROR_OUT_OF_MEMORY
  | ERROR_END_OF_FILE
  | ERROR_DECRYPTION_FAILED
  | ERROR_WRONG_IDENTIFIER
  | ERROR_NOT_IMPLEMENTED
  | ERROR_INVALID_SYNTAX
  | otherError (code : Nat)
  deriving DecidableEq, Repr

/-- `X509KeyType` values used by `pemGetPublicKeyType` /
`pemGetPrivateKeyType`. -/
inductive X509KeyType where
  | X509_KEY_TYPE_UNKNOWN
  | X509_KEY_TYPE_RSA
  | X509_KEY_TYPE_RSA_PSS
  | X509_KEY_TYPE_DSA
  | X509_KEY_TYPE_EC
  | X509_KEY_TYPE_ED25519
  | X509_KEY_TYPE_ED448
  deriving DecidableEq, Repr

/-- Decoded binary payload (contents of the PEM container). -/
abbrev Payload := List Nat

/-- The caller-visible key object (RSA/DSA/EC/EdDSA public or private key,
EC domain parameters).  The C structures hold multi-precision fields; here
a key object is an opaque list of field tokens, and the empty list `[]` is
the state produced by the corresponding free routine. -/
abbrev KeyData := List Nat

/-- PEM encapsulated header (`PemHeader`); only the `Proc-Type` type field
is inspected by `pem_import.c`. -/
structure PemHeader where
  procType : String
  deriving DecidableEq, Repr

/-- ASN.1 tag as returned by `asn1ReadSequence` / `asn1ReadMpi`: the tag's
value bytes, its length and its total encoded length. -/
structure Asn1Tag where
  value : Payload
  length : Nat
  totalLength : Nat
  deriving DecidableEq, Repr

/-- `Pkcs8EncryptedPrivateKeyInfo`: the fields read by `pem_import.c`
(the encryption algorithm identifier, as an opaque token, and the
encrypted data). -/
structure Pkcs8EncryptedPrivateKeyInfo where
  encryptionAlgo : Nat
  encryptedData : Payload
  deriving DecidableEq, Repr

/-- Result of a sizing pass of `pemDecodeFile` (output buffer NULL):
error code and required buffer length. -/
structure SizeResult where
  error : error_t
  size : Nat
  deriving DecidableEq, Repr

/-- Result of a filling pass of `pemDecodeFile`: error code, decoded
payload, and the encapsulated header (meaningful only to callers that
request it). -/
structure FillResult where
  error : error_t
  payload : Payload
  header : PemHeader
  deriving DecidableEq, Repr

/-- Result of a structural parser: error code and an opaque token standing
for the parsed structure (`Pkcs8PrivateKeyInfo`, `X509SubjectPublicKeyInfo`,
`X509EcParameters`, ...). -/
structure ParseResult where
  error : error_t
  info : Nat
  deriving DecidableEq, Repr

/-- Result of a decryption primitive: error code and cleartext output. -/
structure DecryptResult where
  error : error_t
  output : Payload
  deriving DecidableEq, Repr

/-- Result of a key-materialization routine
(`pkcs8ImportRsaPrivateKey`, `x509ImportRsaPublicKey`, ...): error code and
the state of the caller's key object after the call (the routine may have
written only some fields when it fails). -/
structure KeyResult where
  error : error_t
  key : KeyData
  deriving DecidableEq, Repr

/-- Result of `pkcs8ParseEncryptedPrivateKeyInfo`. -/
structure EncParseResult where
  error : error_t
  info : Pkcs8EncryptedPrivateKeyInfo
  deriving DecidableEq, Repr

/-- Result of `asn1ReadSequence`. -/
structure TagResult where
  error : error_t
  tag : Asn1Tag
  deriving DecidableEq, Repr

/-- Result of `asn1ReadMpi`: error code, the tag that was read, and the
multiple-precision integer (opaque field token list) that was stored. -/
structure MpiResult where
  error : error_t
  tag : Asn1Tag
  value : Payload
  deriving DecidableEq, Repr

/-- Trace of calls made to external collaborators during one import call.
`sizeAttempt` records a sizing pass of `pemDecodeFile` for a label,
`fill` a filling pass, `allocEvt` a `cryptoAllocMem` request, `parseEvt` a
structural-parser invocation on a payload, `pemDecrypt` a call to
`pemDecryptMessage`, `pkcs5 d` a call to `pkcs5Decrypt` on ciphertext `d`,
`importKey` a key-materialization call, and `freeKey` the invocation of the
output key object's free routine. -/
inductive Event where
  | sizeAttempt (label : String)
  | allocEvt (n : Nat)
  | fill (label : String)
  | pemDecrypt
  | pkcs5 (data : Payload)
  | parseEvt (name : String) (data : Payload)
  | importKey
  | freeKey
  deriving DecidableEq, Repr

/-- Behaviour of all external collaborators on the (fixed) input of
one import call, together with the `PEM_ENCRYPTED_KEY_SUPPORT`
compile-time switch.  `decodeSize label` is the sizing pass of `pemDecodeFile` for
`label`; `decodeFill label` the filling pass. -/
structure Env where
  pemEncryptedKeySupport : Bool
  decodeSize : String → SizeResult
  decodeFill : String → FillResult
  allocOk : Nat → Bool
  pemDecryptMessage : PemHeader → Option String → Payload → DecryptResult
  pkcs5Decrypt : Nat → Option String → Payload → DecryptResult
  pkcs8ParseRsaPrivateKey : Payload → ParseResult
  pkcs8ParseDsaPrivateKey : Payload → ParseResult
  pkcs8ParseEcPrivateKey : Payload → ParseResult
  pkcs8ParsePrivateKeyInfo : Payload → ParseResult
  pkcs8ParseEncryptedPrivateKeyInfo : Payload → EncParseResult
  pkcs8ImportRsaPrivateKey : Nat → KeyData → KeyResult
  pkcs8ImportDsaPrivateKey : Nat → KeyData → KeyResult
  pkcs8ImportEcPrivateKey : Nat → KeyData → KeyResult
  pkcs8ImportEddsaPrivateKey : Nat → KeyData → KeyResult
  x509ParseRsaPublicKey : Payload → ParseResult
  x509ParseSubjectPublicKeyInfo : Payload → ParseResult
  x509ParseEcParameters : Payload → ParseResult
  x509ImportRsaPublicKey : Nat → KeyData → KeyResult
  x509ImportDsaPublicKey : Nat → KeyData → KeyResult
  x509ImportEcPublicKey : Nat → KeyData → KeyResult
  x509ImportEddsaPublicKey : Nat → KeyData → KeyResult
  x509ImportEcParameters : Nat → KeyData → KeyResult
  x509GetPublicKeyType : Nat → X509KeyType
  asn1ReadSequence : Payload → TagResult
  asn1ReadMpi : Payload → Nat → MpiResult

/-- Model of `pemCompareString` applied to the header's `Proc-Type` type
field: a plain string comparison. -/
def pemCompareString (s t : String) : Bool := s == t

/-- `rsaFreePrivateKey`: releases every field of the key object. -/
def rsaFreePrivateKey (_ : KeyData) : KeyData := []

/-- `rsaFreePublicKey`. -/
def rsaFreePublicKey (_ : KeyData) : KeyData := []

/-- `dsaFreePrivateKey`. -/
def dsaFreePrivateKey (_ : KeyData) : KeyData := []

/-- `dsaFreePublicKey`. -/
def dsaFreePublicKey (_ : KeyData) : KeyData := []

/-- `ecFreePrivateKey`. -/
def ecFreePrivateKey (_ : KeyData) : KeyData := []

/-- `ecFreePublicKey`. -/
def ecFreePublicKey (_ : KeyData) : KeyData := []

/-- `ecFreeDomainParameters`. -/
def ecFreeDomainParameters (_ : KeyData) : KeyData := []

/-- `eddsaFreePrivateKey`. -/
def eddsaFreePrivateKey (_ : KeyData) : KeyData := []

/-- `eddsaFreePublicKey`. -/
def eddsaFreePublicKey (_ : KeyData) : KeyData := []

/-- `DhParameters`: prime modulus `p` and generator `g`, each a
multiple-precision integer modelled as an opaque field token list
(`[]` is the state after `mpiFree`). -/
structure DhParameters where
  p : Payload
  g : Payload
  deriving DecidableEq, Repr

/-- `mpiFree`. -/
def mpiFree (_ : Payload) : Payload := []

/-- Result of an embedded import call: the returned `error_t`, the final
state of the caller's key object, and the trace of collaborator calls. -/
structure ImportResult where
  error : error_t
  key : KeyData
  trace : List Event
  deriving DecidableEq, Repr

/-- Result of the embedded `pemImportDhParameters`. -/
structure DhResult where
  error : error_t
  params : DhParameters
  trace : List Event
  deriving DecidableEq, Repr

/-- Result of the embedded `pemGetPublicKeyType` / `pemGetPrivateKeyType`:
error code, final value of `*keyType`, trace. -/
structure TypeResult where
  error : error_t
  keyType : X509KeyType
  trace : List Event
  deriving DecidableEq, Repr

/-- Result of the embedded `pemImportCertificate` / `pemImportCrl` /
`pemImportCsr` (plain decode-to-buffer calls). -/
structure DecodeCallResult where
  error : error_t
  trace : List Event
  deriving DecidableEq, Repr

/-- Prepend a sizing-pass event to a branch result. -/
def withSize (l : String) (r : ImportResult) : ImportResult :=
  ⟨r.error, r.key, .sizeAttempt l :: r.trace⟩

/-- The common error epilogue of the key-import functions: on any error the
key object's free routine is invoked before the error is returned
(`if(error) { xxxFreeKey(key); }`). -/
def finishKey (free : KeyData → KeyData) (r : ImportResult) : ImportResult :=
  if r.error = .NO_ERROR then r
  else ⟨r.error, free r.key, r.trace ++ [.freeKey]⟩

/-- Body of an import branch of the shape shared by the legacy RSA public
branch, the generic `"PRIVATE KEY"` / `"PUBLIC KEY"` branches and all four
`pemImportEcParameters` branches: allocate, filling decode, one structural
parse, one key materialization, with the first failing stage's error
propagated.  `parse` and `imp` are the `Env` fields the C branch calls;
`parseName` names the parser in the trace. -/
def parseImportBranch (env : Env) (label parseName : String)
    (parse : Payload → ParseResult) (imp : Nat → KeyData → KeyResult)
    (key : KeyData) (n : Nat) : ImportResult :=
  if env.allocOk n then
    let f := env.decodeFill label
    if f.error = .NO_ERROR then
      let p := parse f.payload
      if p.error = .NO_ERROR then
        let i := imp p.info key
        ⟨i.error, i.key,
          [.allocEvt n, .fill label, .parseEvt parseName f.payload, .importKey]⟩
      else
        ⟨p.error, key, [.allocEvt n, .fill label, .parseEvt parseName f.payload]⟩
    else
      ⟨f.error, key, [.allocEvt n, .fill label]⟩
  else
    ⟨.ERROR_OUT_OF_MEMORY, key, [.allocEvt n]⟩

/-- Body of a legacy algorithm-specific private-key branch
(`"RSA PRIVATE KEY"` / `"DSA PRIVATE KEY"` / `"EC PRIVATE KEY"`):
filling decode with header retrieval, legacy header-marker detection
(`pemDecryptMessage` invoked exactly when the `Proc-Type` type field equals
`"ENCRYPTED"`), structural parse, key materialization. -/
def legacyPrivBranch (env : Env) (label parseName : String)
    (parse : Payload → ParseResult) (imp : Nat → KeyData → KeyResult)
    (password : Option String) (key : KeyData) (n : Nat) : ImportResult :=
  if env.allocOk n then
    let f := env.decodeFill label
    if f.error = .NO_ERROR then
      if pemCompareString f.header.procType "ENCRYPTED" then
        let d := env.pemDecryptMessage f.header password f.payload
        if d.error = .NO_ERROR then
          let p := parse d.output
          if p.error = .NO_ERROR then
            let i := imp p.info key
            ⟨i.error, i.key,
              [.allocEvt n, .fill label, .pemDecrypt,
                .parseEvt parseName d.output, .importKey]⟩
          else
            ⟨p.error, key,
              [.allocEvt n, .fill label, .pemDecrypt, .parseEvt parseName d.output]⟩
        else
          ⟨d.error, key, [.allocEvt n, .fill label, .pemDecrypt]⟩
      else
        let p := parse f.payload
        if p.error = .NO_ERROR then
          let i := imp p.info key
          ⟨i.error, i.key,
            [.allocEvt n, .fill label, .parseEvt parseName f.payload, .importKey]⟩
        else
          ⟨p.error, key, [.allocEvt n, .fill label, .parseEvt parseName f.payload]⟩
    else
      ⟨f.error, key, [.allocEvt n, .fill label]⟩
  else
    ⟨.ERROR_OUT_OF_MEMORY, key, [.allocEvt n]⟩

/-- Body of the `"ENCRYPTED PRIVATE KEY"` branch: when
`PEM_ENCRYPTED_KEY_SUPPORT` is enabled, the payload is parsed as an
`EncryptedPrivateKeyInfo` envelope, its encrypted data decrypted with
`pkcs5Decrypt`, and the cleartext parsed as a `PrivateKeyInfo`; when the
support is compiled out, the branch fails with `ERROR_DECRYPTION_FAILED`. -/
def encryptedPrivBranch (env : Env) (imp : Nat → KeyData → KeyResult)
    (password : Option String) (key : KeyData) (n : Nat) : ImportResult :=
  if env.pemEncryptedKeySupport then
    if env.allocOk n then
      let f := env.decodeFill "ENCRYPTED PRIVATE KEY"
      if f.error = .NO_ERROR then
        let pe := env.pkcs8ParseEncryptedPrivateKeyInfo f.payload
        if pe.error = .NO_ERROR then
          let d := env.pkcs5Decrypt pe.info.encryptionAlgo password pe.info.encryptedData
          if d.error = .NO_ERROR then
            let p := env.pkcs8ParsePrivateKeyInfo d.output
            if p.error = .NO_ERROR then
              let i := imp p.info key
              ⟨i.error, i.key,
                [.allocEvt n, .fill "ENCRYPTED PRIVATE KEY",
                  .parseEvt "pkcs8ParseEncryptedPrivateKeyInfo" f.payload,
                  .pkcs5 pe.info.encryptedData,
                  .parseEvt "pkcs8ParsePrivateKeyInfo" d.output, .importKey]⟩
            else
              ⟨p.error, key,
                [.allocEvt n, .fill "ENCRYPTED PRIVATE KEY",
                  .parseEvt "pkcs8ParseEncryptedPrivateKeyInfo" f.payload,
                  .pkcs5 pe.info.encryptedData,
                  .parseEvt "pkcs8ParsePrivateKeyInfo" d.output]⟩
          else
            ⟨d.error, key,
              [.allocEvt n, .fill "ENCRYPTED PRIVATE KEY",
                .parseEvt "pkcs8ParseEncryptedPrivateKeyInfo" f.payload,
                .pkcs5 pe.info.encryptedData]⟩
        else
          ⟨pe.error, key,
            [.allocEvt n, .fill "ENCRYPTED PRIVATE KEY",
              .parseEvt "pkcs8ParseEncryptedPrivateKeyInfo" f.payload]⟩
      else
        ⟨f.error, key, [.allocEvt n, .fill "ENCRYPTED PRIVATE KEY"]⟩
    else
      ⟨.ERROR_OUT_OF_MEMORY, key, [.allocEvt n]⟩
  else
    ⟨.ERROR_DECRYPTION_FAILED, key, []⟩

/-- Body of `pemImportRsaPrivateKey` after the parameter checks: the
else-if chain over the labels `"RSA PRIVATE KEY"`, `"PRIVATE KEY"`,
`"ENCRYPTED PRIVATE KEY"`. -/
def pemImportRsaPrivateKeyBody (env : Env) (password : Option String)
    (key : KeyData) : ImportResult :=
  let s1 := env.decodeSize "RSA PRIVATE KEY"
  if s1.error = .NO_ERROR then
    withSize "RSA PRIVATE KEY"
      (legacyPrivBranch env "RSA PRIVATE KEY" "pkcs8ParseRsaPrivateKey"
        env.pkcs8ParseRsaPrivateKey env.pkcs8ImportRsaPrivateKey password key s1.size)
  else
    let s2 := env.decodeSize "PRIVATE KEY"
    if s2.error = .NO_ERROR then
      withSize "RSA PRIVATE KEY" (withSize "PRIVATE KEY"
        (parseImportBranch env "PRIVATE KEY" "pkcs8ParsePrivateKeyInfo"
          env.pkcs8ParsePrivateKeyInfo env.pkcs8ImportRsaPrivateKey key s2.size))
    else
      let s3 := env.decodeSize "ENCRYPTED PRIVATE KEY"
      if s3.error = .NO_ERROR then
        withSize "RSA PRIVATE KEY" (withSize "PRIVATE KEY"
          (withSize "ENCRYPTED PRIVATE KEY"
            (encryptedPrivBranch env env.pkcs8ImportRsaPrivateKey password key s3.size)))
      else
        ⟨.ERROR_END_OF_FILE, key,
          [.sizeAttempt "RSA PRIVATE KEY", .sizeAttempt "PRIVATE KEY",
            .sizeAttempt "ENCRYPTED PRIVATE KEY"]⟩

/-- `pemImportRsaPrivateKey`.  `inputNull` models `input == NULL`,
`privateKeyNull` models `privateKey == NULL`, `privateKey` is the state of
the caller's key object on entry. -/
def pemImportRsaPrivateKey (env : Env) (inputNull : Bool) (length : Nat)
    (password : Option String) (privateKeyNull : Bool) (privateKey : KeyData) :
    ImportResult :=
  if inputNull = true ∧ length ≠ 0 then ⟨.ERROR_INVALID_PARAMETER, privateKey, []⟩
  else if privateKeyNull = true then ⟨.ERROR_INVALID_PARAMETER, privateKey, []⟩
  else finishKey rsaFreePrivateKey (pemImportRsaPrivateKeyBody env password privateKey)

/-- `pemImportCertificate`: parameter checks, then a single decode with the
`"CERTIFICATE"` label whose error code is returned unchanged.
`outputLenNull` models `outputLen == NULL`. -/
def pemImportCertificate (env : Env) (inputNull : Bool) (inputLen : Nat)
    (outputLenNull : Bool) : DecodeCallResult :=
  if inputNull = true ∧ inputLen ≠ 0 then ⟨.ERROR_INVALID_PARAMETER, []⟩
  else if outputLenNull = true then ⟨.ERROR_INVALID_PARAMETER, []⟩
  else ⟨(env.decodeSize "CERTIFICATE").error, [.sizeAttempt "CERTIFICATE"]⟩

/-- `pemImportCrl`: single decode with the `"X509 CRL"` label. -/
def pemImportCrl (env : Env) (inputNull : Bool) (inputLen : Nat)
    (outputLenNull : Bool) : DecodeCallResult :=
  if inputNull = true ∧ inputLen ≠ 0 then ⟨.ERROR_INVALID_PARAMETER, []⟩
  else if outputLenNull = true then ⟨.ERROR_INVALID_PARAMETER, []⟩
  else ⟨(env.decodeSize "X509 CRL").error, [.sizeAttempt "X509 CRL"]⟩

/-- `pemImportCsr`: single decode with the `"CERTIFICATE REQUEST"` label. -/
def pemImportCsr (env : Env) (inputNull : Bool) (inputLen : Nat)
    (outputLenNull : Bool) : DecodeCallResult :=
  if inputNull = true ∧ inputLen ≠ 0 then ⟨.ERROR_INVALID_PARAMETER, []⟩
  else if outputLenNull = true then ⟨.ERROR_INVALID_PARAMETER, []⟩
  else ⟨(env.decodeSize "CERTIFICATE REQUEST").error, [.sizeAttempt "CERTIFICATE REQUEST"]⟩

/-- Body of `pemImportDhParameters` after the parameter checks: size-then-
fill decode of the `"DH PARAMETERS"` container, `asn1ReadSequence`, then
two `asn1ReadMpi` reads into `params->p` and `params->g` with pointer
advance by the first tag's total length. -/
def pemImportDhParametersBody (env : Env) (params : DhParameters) : DhResult :=
  let s := env.decodeSize "DH PARAMETERS"
  if s.error = .NO_ERROR then
    if env.allocOk s.size then
      let f := env.decodeFill "DH PARAMETERS"
      if f.error = .NO_ERROR then
        let sq := env.asn1ReadSequence f.payload
        if sq.error = .NO_ERROR then
          let p0 := sq.tag.value
          let n0 := sq.tag.length
          let m1 := env.asn1ReadMpi p0 n0
          if m1.error = .NO_ERROR then
            let p1 := p0.drop m1.tag.totalLength
            let n1 := n0 - m1.tag.totalLength
            let m2 := env.asn1ReadMpi p1 n1
            ⟨m2.error, ⟨m1.value, m2.value⟩,
              [.sizeAttempt "DH PARAMETERS", .allocEvt s.size, .fill "DH PARAMETERS",
                .parseEvt "asn1ReadSequence" f.payload,
                .parseEvt "asn1ReadMpi" p0, .parseEvt "asn1ReadMpi" p1]⟩
          else
            ⟨m1.error, ⟨m1.value, params.g⟩,
              [.sizeAttempt "DH PARAMETERS", .allocEvt s.size, .fill "DH PARAMETERS",
                .parseEvt "asn1ReadSequence" f.payload, .parseEvt "asn1ReadMpi" p0]⟩
        else
          ⟨sq.error, params,
            [.sizeAttempt "DH PARAMETERS", .allocEvt s.size, .fill "DH PARAMETERS",
              .parseEvt "asn1ReadSequence" f.payload]⟩
      else
        ⟨f.error, params,
          [.sizeAttempt "DH PARAMETERS", .allocEvt s.size, .fill "DH PARAMETERS"]⟩
    else
      ⟨.ERROR_OUT_OF_MEMORY, params, [.sizeAttempt "DH PARAMETERS", .allocEvt s.size]⟩
  else
    ⟨s.error, params, [.sizeAttempt "DH PARAMETERS"]⟩

/-- `pemImportDhParameters`: on any error both MPI fields of the output
parameters are released (`mpiFree`) before the error is returned. -/
def pemImportDhParameters (env : Env) (inputNull : Bool) (length : Nat)
    (paramsNull : Bool) (params : DhParameters) : DhResult :=
  if inputNull = true ∧ length ≠ 0 then ⟨.ERROR_INVALID_PARAMETER, params, []⟩
  else if paramsNull = true then ⟨.ERROR_INVALID_PARAMETER, params, []⟩
  else
    let r := pemImportDhParametersBody env params
    if r.error = .NO_ERROR then r
    else ⟨r.error, ⟨mpiFree r.params.p, mpiFree r.params.g⟩, r.trace ++ [.freeKey]⟩

/-- Body of `pemImportRsaPublicKey` after the parameter checks: the else-if
chain over `"RSA PUBLIC KEY"` (PKCS#1 `RSAPublicKey`) and `"PUBLIC KEY"`
(`SubjectPublicKeyInfo`). -/
def pemImportRsaPublicKeyBody (env : Env) (key : KeyData) : ImportResult :=
  let s1 := env.decodeSize "RSA PUBLIC KEY"
  if s1.error = .NO_ERROR then
    withSize "RSA PUBLIC KEY"
      (parseImportBranch env "RSA PUBLIC KEY" "x509ParseRsaPublicKey"
        env.x509ParseRsaPublicKey env.x509ImportRsaPublicKey key s1.size)
  else
    let s2 := env.decodeSize "PUBLIC KEY"
    if s2.error = .NO_ERROR then
      withSize "RSA PUBLIC KEY" (withSize "PUBLIC KEY"
        (parseImportBranch env "PUBLIC KEY" "x509ParseSubjectPublicKeyInfo"
          env.x509ParseSubjectPublicKeyInfo env.x509ImportRsaPublicKey key s2.size))
    else
      ⟨.ERROR_END_OF_FILE, key,
        [.sizeAttempt "RSA PUBLIC KEY", .sizeAttempt "PUBLIC KEY"]⟩

/-- `pemImportRsaPublicKey`. -/
def pemImportRsaPublicKey (env : Env) (inputNull : Bool) (length : Nat)
    (publicKeyNull : Bool) (publicKey : KeyData) : ImportResult :=
  if inputNull = true ∧ length ≠ 0 then ⟨.ERROR_INVALID_PARAMETER, publicKey, []⟩
  else if publicKeyNull = true then ⟨.ERROR_INVALID_PARAMETER, publicKey, []⟩
  else finishKey rsaFreePublicKey (pemImportRsaPublicKeyBody env publicKey)

/-- Body of `pemImportDsaPublicKey` after the parameter checks: a single
`"PUBLIC KEY"` container; the sizing pass's error code is propagated
unchanged when it fails. -/
def pemImportDsaPublicKeyBody (env : Env) (key : KeyData) : ImportResult :=
  let s := env.decodeSize "PUBLIC KEY"
  if s.error = .NO_ERROR then
    withSize "PUBLIC KEY"
      (parseImportBranch env "PUBLIC KEY" "x509ParseSubjectPublicKeyInfo"
        env.x509ParseSubjectPublicKeyInfo env.x509ImportDsaPublicKey key s.size)
  else
    ⟨s.error, key, [.sizeAttempt "PUBLIC KEY"]⟩

/-- `pemImportDsaPublicKey`. -/
def pemImportDsaPublicKey (env : Env) (inputNull : Bool) (length : Nat)
    (publicKeyNull : Bool) (publicKey : KeyData) : ImportResult :=
  if inputNull = true ∧ length ≠ 0 then ⟨.ERROR_INVALID_PARAMETER, publicKey, []⟩
  else if publicKeyNull = true then ⟨.ERROR_INVALID_PARAMETER, publicKey, []⟩
  else finishKey dsaFreePublicKey (pemImportDsaPublicKeyBody env publicKey)

/-- Body of `pemImportDsaPrivateKey` after the parameter checks: the
else-if chain over `"DSA PRIVATE KEY"`, `"PRIVATE KEY"`,
`"ENCRYPTED PRIVATE KEY"`. -/
def pemImportDsaPrivateKeyBody (env : Env) (password : Option String)
    (key : KeyData) : ImportResult :=
  let s1 := env.decodeSize "DSA PRIVATE KEY"
  if s1.error = .NO_ERROR then
    withSize "DSA PRIVATE KEY"
      (legacyPrivBranch env "DSA PRIVATE KEY" "pkcs8ParseDsaPrivateKey"
        env.pkcs8ParseDsaPrivateKey env.pkcs8ImportDsaPrivateKey password key s1.size)
  else
    let s2 := env.decodeSize "PRIVATE KEY"
    if s2.error = .NO_ERROR then
      withSize "DSA PRIVATE KEY" (withSize "PRIVATE KEY"
        (parseImportBranch env "PRIVATE KEY" "pkcs8ParsePrivateKeyInfo"
          env.pkcs8ParsePrivateKeyInfo env.pkcs8ImportDsaPrivateKey key s2.size))
    else
      let s3 := env.decodeSize "ENCRYPTED PRIVATE KEY"
      if s3.error = .NO_ERROR then
        withSize "DSA PRIVATE KEY" (withSize "PRIVATE KEY"
          (withSize "ENCRYPTED PRIVATE KEY"
            (encryptedPrivBranch env env.pkcs8ImportDsaPrivateKey password key s3.size)))
      else
        ⟨.ERROR_END_OF_FILE, key,
          [.sizeAttempt "DSA PRIVATE KEY", .sizeAttempt "PRIVATE KEY",
            .sizeAttempt "ENCRYPTED PRIVATE KEY"]⟩

/-- `pemImportDsaPrivateKey`. -/
def pemImportDsaPrivateKey (env : Env) (inputNull : Bool) (length : Nat)
    (password : Option String) (privateKeyNull : Bool) (privateKey : KeyData) :
    ImportResult :=
  if inputNull = true ∧ length ≠ 0 then ⟨.ERROR_INVALID_PARAMETER, privateKey, []⟩
  else if privateKeyNull = true then ⟨.ERROR_INVALID_PARAMETER, privateKey, []⟩
  else finishKey dsaFreePrivateKey (pemImportDsaPrivateKeyBody env password privateKey)

/-- Body of `pemImportEcParameters` after the parameter checks: the else-if
chain over `"EC PARAMETERS"`, `"EC PRIVATE KEY"`, `"PRIVATE KEY"`,
`"PUBLIC KEY"`, each branch extracting the EC domain parameters from the
corresponding structure. -/
def pemImportEcParametersBody (env : Env) (params : KeyData) : ImportResult :=
  let s1 := env.decodeSize "EC PARAMETERS"
  if s1.error = .NO_ERROR then
    withSize "EC PARAMETERS"
      (parseImportBranch env "EC PARAMETERS" "x509ParseEcParameters"
        env.x509ParseEcParameters env.x509ImportEcParameters params s1.size)
  else
    let s2 := env.decodeSize "EC PRIVATE KEY"
    if s2.error = .NO_ERROR then
      withSize "EC PARAMETERS" (withSize "EC PRIVATE KEY"
        (parseImportBranch env "EC PRIVATE KEY" "pkcs8ParseEcPrivateKey"
          env.pkcs8ParseEcPrivateKey env.x509ImportEcParameters params s2.size))
    else
      let s3 := env.decodeSize "PRIVATE KEY"
      if s3.error = .NO_ERROR then
        withSize "EC PARAMETERS" (withSize "EC PRIVATE KEY" (withSize "PRIVATE KEY"
          (parseImportBranch env "PRIVATE KEY" "pkcs8ParsePrivateKeyInfo"
            env.pkcs8ParsePrivateKeyInfo env.x509ImportEcParameters params s3.size)))
      else
        let s4 := env.decodeSize "PUBLIC KEY"
        if s4.error = .NO_ERROR then
          withSize "EC PARAMETERS" (withSize "EC PRIVATE KEY" (withSize "PRIVATE KEY"
            (withSize "PUBLIC KEY"
              (parseImportBranch env "PUBLIC KEY" "x509ParseSubjectPublicKeyInfo"
                env.x509ParseSubjectPublicKeyInfo env.x509ImportEcParameters params
                s4.size))))
        else
          ⟨.ERROR_END_OF_FILE, params,
            [.sizeAttempt "EC PARAMETERS", .sizeAttempt "EC PRIVATE KEY",
              .sizeAttempt "PRIVATE KEY", .sizeAttempt "PUBLIC KEY"]⟩

/-- `pemImportEcParameters`. -/
def pemImportEcParameters (env : Env) (inputNull : Bool) (length : Nat)
    (paramsNull : Bool) (params : KeyData) : ImportResult :=
  if inputNull = true ∧ length ≠ 0 then ⟨.ERROR_INVALID_PARAMETER, params, []⟩
  else if paramsNull = true then ⟨.ERROR_INVALID_PARAMETER, params, []⟩
  else finishKey ecFreeDomainParameters (pemImportEcParametersBody env params)

/-- Body of `pemImportEcPublicKey` after the parameter checks: a single
`"PUBLIC KEY"` container; the sizing pass's error code is propagated
unchanged when it fails. -/
def pemImportEcPublicKeyBody (env : Env) (key : KeyData) : ImportResult :=
  let s := env.decodeSize "PUBLIC KEY"
  if s.error = .NO_ERROR then
    withSize "PUBLIC KEY"
      (parseImportBranch env "PUBLIC KEY" "x509ParseSubjectPublicKeyInfo"
        env.x509ParseSubjectPublicKeyInfo env.x509ImportEcPublicKey key s.size)
  else
    ⟨s.error, key, [.sizeAttempt "PUBLIC KEY"]⟩

/-- `pemImportEcPublicKey`. -/
def pemImportEcPublicKey (env : Env) (inputNull : Bool) (length : Nat)
    (publicKeyNull : Bool) (publicKey : KeyData) : ImportResult :=
  if inputNull = true ∧ length ≠ 0 then ⟨.ERROR_INVALID_PARAMETER, publicKey, []⟩
  else if publicKeyNull = true then ⟨.ERROR_INVALID_PARAMETER, publicKey, []⟩
  else finishKey ecFreePublicKey (pemImportEcPublicKeyBody env publicKey)

/-- Body of `pemImportEcPrivateKey` after the parameter checks: the else-if
chain over `"EC PRIVATE KEY"`, `"PRIVATE KEY"`, `"ENCRYPTED PRIVATE KEY"`. -/
def pemImportEcPrivateKeyBody (env : Env) (password : Option String)
    (key : KeyData) : ImportResult :=
  let s1 := env.decodeSize "EC PRIVATE KEY"
  if s1.error = .NO_ERROR then
    withSize "EC PRIVATE KEY"
      (legacyPrivBranch env "EC PRIVATE KEY" "pkcs8ParseEcPrivateKey"
        env.pkcs8ParseEcPrivateKey env.pkcs8ImportEcPrivateKey password key s1.size)
  else
    let s2 := env.decodeSize "PRIVATE KEY"
    if s2.error = .NO_ERROR then
      withSize "EC PRIVATE KEY" (withSize "PRIVATE KEY"
        (parseImportBranch env "PRIVATE KEY" "pkcs8ParsePrivateKeyInfo"
          env.pkcs8ParsePrivateKeyInfo env.pkcs8ImportEcPrivateKey key s2.size))
    else
      let s3 := env.decodeSize "ENCRYPTED PRIVATE KEY"
      if s3.error = .NO_ERROR then
        withSize "EC PRIVATE KEY" (withSize "PRIVATE KEY"
          (withSize "ENCRYPTED PRIVATE KEY"
            (encryptedPrivBranch env env.pkcs8ImportEcPrivateKey password key s3.size)))
      else
        ⟨.ERROR_END_OF_FILE, key,
          [.sizeAttempt "EC PRIVATE KEY", .sizeAttempt "PRIVATE KEY",
            .sizeAttempt "ENCRYPTED PRIVATE KEY"]⟩

/-- `pemImportEcPrivateKey`. -/
def pemImportEcPrivateKey (env : Env) (inputNull : Bool) (length : Nat)
    (password : Option String) (privateKeyNull : Bool) (privateKey : KeyData) :
    ImportResult :=
  if inputNull = true ∧ length ≠ 0 then ⟨.ERROR_INVALID_PARAMETER, privateKey, []⟩
  else if privateKeyNull = true then ⟨.ERROR_INVALID_PARAMETER, privateKey, []⟩
  else finishKey ecFreePrivateKey (pemImportEcPrivateKeyBody env password privateKey)

/-- Body of `pemImportEddsaPublicKey` after the parameter checks: a single
`"PUBLIC KEY"` container; the sizing pass's error code is propagated
unchanged when it fails. -/
def pemImportEddsaPublicKeyBody (env : Env) (key : KeyData) : ImportResult :=
  let s := env.decodeSize "PUBLIC KEY"
  if s.error = .NO_ERROR then
    withSize "PUBLIC KEY"
      (parseImportBranch env "PUBLIC KEY" "x509ParseSubjectPublicKeyInfo"
        env.x509ParseSubjectPublicKeyInfo env.x509ImportEddsaPublicKey key s.size)
  else
    ⟨s.error, key, [.sizeAttempt "PUBLIC KEY"]⟩

/-- `pemImportEddsaPublicKey`. -/
def pemImportEddsaPublicKey (env : Env) (inputNull : Bool) (length : Nat)
    (publicKeyNull : Bool) (publicKey : KeyData) : ImportResult :=
  if inputNull = true ∧ length ≠ 0 then ⟨.ERROR_INVALID_PARAMETER, publicKey, []⟩
  else if publicKeyNull = true then ⟨.ERROR_INVALID_PARAMETER, publicKey, []⟩
  else finishKey eddsaFreePublicKey (pemImportEddsaPublicKeyBody env publicKey)

/-- Body of `pemImportEddsaPrivateKey` after the parameter checks: the
else-if chain over `"PRIVATE KEY"` and `"ENCRYPTED PRIVATE KEY"` (EdDSA
keys have no algorithm-specific legacy label). -/
def pemImportEddsaPrivateKeyBody (env : Env) (password : Option String)
    (key : KeyData) : ImportResult :=
  let s1 := env.decodeSize "PRIVATE KEY"
  if s1.error = .NO_ERROR then
    withSize "PRIVATE KEY"
      (parseImportBranch env "PRIVATE KEY" "pkcs8ParsePrivateKeyInfo"
        env.pkcs8ParsePrivateKeyInfo env.pkcs8ImportEddsaPrivateKey key s1.size)
  else
    let s2 := env.decodeSize "ENCRYPTED PRIVATE KEY"
    if s2.error = .NO_ERROR then
      withSize "PRIVATE KEY" (withSize "ENCRYPTED PRIVATE KEY"
        (encryptedPrivBranch env env.pkcs8ImportEddsaPrivateKey password key s2.size))
    else
      ⟨.ERROR_END_OF_FILE, key,
        [.sizeAttempt "PRIVATE KEY", .sizeAttempt "ENCRYPTED PRIVATE KEY"]⟩

/-- `pemImportEddsaPrivateKey`. -/
def pemImportEddsaPrivateKey (env : Env) (inputNull : Bool) (length : Nat)
    (password : Option String) (privateKeyNull : Bool) (privateKey : KeyData) :
    ImportResult :=
  if inputNull = true ∧ length ≠ 0 then ⟨.ERROR_INVALID_PARAMETER, privateKey, []⟩
  else if privateKeyNull = true then ⟨.ERROR_INVALID_PARAMETER, privateKey, []⟩
  else finishKey eddsaFreePrivateKey (pemImportEddsaPrivateKeyBody env password privateKey)

/-- `pemGetPublicKeyType`: classify a PEM public key by label; the
`"RSA PUBLIC KEY"` label classifies without touching the payload, the
generic `"PUBLIC KEY"` label requires parsing the `SubjectPublicKeyInfo`
and mapping its algorithm identifier (`ERROR_WRONG_IDENTIFIER` when the
identifier is unknown).  `keyType0` is the caller's variable before the
call; the function writes `X509_KEY_TYPE_UNKNOWN` to it as soon as the
parameter checks pass. -/
def pemGetPublicKeyType (env : Env) (inputNull : Bool) (length : Nat)
    (keyTypeNull : Bool) (keyType0 : X509KeyType) : TypeResult :=
  if inputNull = true ∧ length ≠ 0 then ⟨.ERROR_INVALID_PARAMETER, keyType0, []⟩
  else if keyTypeNull = true then ⟨.ERROR_INVALID_PARAMETER, keyType0, []⟩
  else
    let s1 := env.decodeSize "RSA PUBLIC KEY"
    if s1.error = .NO_ERROR then
      ⟨.NO_ERROR, .X509_KEY_TYPE_RSA, [.sizeAttempt "RSA PUBLIC KEY"]⟩
    else
      let s2 := env.decodeSize "PUBLIC KEY"
      if s2.error = .NO_ERROR then
        if env.allocOk s2.size then
          let f := env.decodeFill "PUBLIC KEY"
          if f.error = .NO_ERROR then
            let p := env.x509ParseSubjectPublicKeyInfo f.payload
            if p.error = .NO_ERROR then
              let t := env.x509GetPublicKeyType p.info
              if t = .X509_KEY_TYPE_UNKNOWN then
                ⟨.ERROR_WRONG_IDENTIFIER, t,
                  [.sizeAttempt "RSA PUBLIC KEY", .sizeAttempt "PUBLIC KEY",
                    .allocEvt s2.size, .fill "PUBLIC KEY",
                    .parseEvt "x509ParseSubjectPublicKeyInfo" f.payload]⟩
              else
                ⟨.NO_ERROR, t,
                  [.sizeAttempt "RSA PUBLIC KEY", .sizeAttempt "PUBLIC KEY",
                    .allocEvt s2.size, .fill "PUBLIC KEY",
                    .parseEvt "x509ParseSubjectPublicKeyInfo" f.payload]⟩
            else
              ⟨p.error, .X509_KEY_TYPE_UNKNOWN,
                [.sizeAttempt "RSA PUBLIC KEY", .sizeAttempt "PUBLIC KEY",
                  .allocEvt s2.size, .fill "PUBLIC KEY",
                  .parseEvt "x509ParseSubjectPublicKeyInfo" f.payload]⟩
          else
            ⟨f.error, .X509_KEY_TYPE_UNKNOWN,
              [.sizeAttempt "RSA PUBLIC KEY", .sizeAttempt "PUBLIC KEY",
                .allocEvt s2.size, .fill "PUBLIC KEY"]⟩
        else
          ⟨.ERROR_OUT_OF_MEMORY, .X509_KEY_TYPE_UNKNOWN,
            [.sizeAttempt "RSA PUBLIC KEY", .sizeAttempt "PUBLIC KEY",
              .allocEvt s2.size]⟩
      else
        ⟨.ERROR_END_OF_FILE, .X509_KEY_TYPE_UNKNOWN,
          [.sizeAttempt "RSA PUBLIC KEY", .sizeAttempt "PUBLIC KEY"]⟩

/-- `pemGetPrivateKeyType`: classify a PEM private key by label; the three
algorithm-specific labels classify without touching the payload, the
generic `"PRIVATE KEY"` label requires parsing the `PrivateKeyInfo` and
mapping its algorithm identifier (`ERROR_WRONG_IDENTIFIER` when the
identifier is unknown). -/
def pemGetPrivateKeyType (env : Env) (inputNull : Bool) (length : Nat)
    (keyTypeNull : Bool) (keyType0 : X509KeyType) : TypeResult :=
  if inputNull = true ∧ length ≠ 0 then ⟨.ERROR_INVALID_PARAMETER, keyType0, []⟩
  else if keyTypeNull = true then ⟨.ERROR_INVALID_PARAMETER, keyType0, []⟩
  else
    let s1 := env.decodeSize "RSA PRIVATE KEY"
    if s1.error = .NO_ERROR then
      ⟨.NO_ERROR, .X509_KEY_TYPE_RSA, [.sizeAttempt "RSA PRIVATE KEY"]⟩
    else
      let s2 := env.decodeSize "DSA PRIVATE KEY"
      if s2.error = .NO_ERROR then
        ⟨.NO_ERROR, .X509_KEY_TYPE_DSA,
          [.sizeAttempt "RSA PRIVATE KEY", .sizeAttempt "DSA PRIVATE KEY"]⟩
      else
        let s3 := env.decodeSize "EC PRIVATE KEY"
        if s3.error = .NO_ERROR then
          ⟨.NO_ERROR, .X509_KEY_TYPE_EC,
            [.sizeAttempt "RSA PRIVATE KEY", .sizeAttempt "DSA PRIVATE KEY",
              .sizeAttempt "EC PRIVATE KEY"]⟩
        else
          let s4 := env.decodeSize "PRIVATE KEY"
          if s4.error = .NO_ERROR then
            if env.allocOk s4.size then
              let f := env.decodeFill "PRIVATE KEY"
              if f.error = .NO_ERROR then
                let p := env.pkcs8ParsePrivateKeyInfo f.payload
                if p.error = .NO_ERROR then
                  let t := env.x509GetPublicKeyType p.info
                  if t = .X509_KEY_TYPE_UNKNOWN then
                    ⟨.ERROR_WRONG_IDENTIFIER, t,
                      [.sizeAttempt "RSA PRIVATE KEY", .sizeAttempt "DSA PRIVATE KEY",
                        .sizeAttempt "EC PRIVATE KEY", .sizeAttempt "PRIVATE KEY",
                        .allocEvt s4.size, .fill "PRIVATE KEY",
                        .parseEvt "pkcs8ParsePrivateKeyInfo" f.payload]⟩
                  else
                    ⟨.NO_ERROR, t,
                      [.sizeAttempt "RSA PRIVATE KEY", .sizeAttempt "DSA PRIVATE KEY",
                        .sizeAttempt "EC PRIVATE KEY", .sizeAttempt "PRIVATE KEY",
                        .allocEvt s4.size, .fill "PRIVATE KEY",
                        .parseEvt "pkcs8ParsePrivateKeyInfo" f.payload]⟩
                else
                  ⟨p.error, .X509_KEY_TYPE_UNKNOWN,
                    [.sizeAttempt "RSA PRIVATE KEY", .sizeAttempt "DSA PRIVATE KEY",
                      .sizeAttempt "EC PRIVATE KEY", .sizeAttempt "PRIVATE KEY",
                      .allocEvt s4.size, .fill "PRIVATE KEY",
                      .parseEvt "pkcs8ParsePrivateKeyInfo" f.payload]⟩
              else
                ⟨f.error, .X509_KEY_TYPE_UNKNOWN,
                  [.sizeAttempt "RSA PRIVATE KEY", .sizeAttempt "DSA PRIVATE KEY",
                    .sizeAttempt "EC PRIVATE KEY", .sizeAttempt "PRIVATE KEY",
                    .allocEvt s4.size, .fill "PRIVATE KEY"]⟩
            else
              ⟨.ERROR_OUT_OF_MEMORY, .X509_KEY_TYPE_UNKNOWN,
                [.sizeAttempt "RSA PRIVATE KEY", .sizeAttempt "DSA PRIVATE KEY",
                  .sizeAttempt "EC PRIVATE KEY", .sizeAttempt "PRIVATE KEY",
                  .allocEvt s4.size]⟩
          else
            ⟨.ERROR_END_OF_FILE, .X509_KEY_TYPE_UNKNOWN,
              [.sizeAttempt "RSA PRIVATE KEY", .sizeAttempt "DSA PRIVATE KEY",
                .sizeAttempt "EC PRIVATE KEY", .sizeAttempt "PRIVATE KEY"]⟩

/-- Labels recorded by sizing-pass events, in trace order. -/
def Event.sizeLabel : Event → Option String
  | .sizeAttempt l => some l
  | _ => none

/-- The sequence of labels for which a sizing pass of `pemDecodeFile` was
attempted, in order. -/
def sizeLabels (t : List Event) : List String := t.filterMap Event.sizeLabel

/-- Resolver contract written from the spec's words (FormatResolver, §4.1):
attempt each candidate label in list order and stop at the first label
whose sizing-pass armor-decoding succeeds.  This is the list of labels the
resolver is expected to attempt. -/
def attemptedLabels (env : Env) : List String → List String
  | [] => []
  | l :: ls =>
    if (env.decodeSize l).error = .NO_ERROR then [l]
    else l :: attemptedLabels env ls

/-- Resolver contract written from the spec's words: the first candidate
label whose sizing-pass armor-decoding succeeds, if any. -/
def firstMatch (env : Env) : List String → Option String
  | [] => none
  | l :: ls =>
    if (env.decodeSize l).error = .NO_ERROR then some l
    else firstMatch env ls

/-- Candidate label list of `pemImportRsaPrivateKey`. -/
def rsaPrivCandidates : List String :=
  ["RSA PRIVATE KEY", "PRIVATE KEY", "ENCRYPTED PRIVATE KEY"]

/-- Candidate label list of `pemImportDsaPrivateKey`. -/
def dsaPrivCandidates : List String :=
  ["DSA PRIVATE KEY", "PRIVATE KEY", "ENCRYPTED PRIVATE KEY"]

/-- Candidate label list of `pemImportEcPrivateKey`. -/
def ecPrivCandidates : List String :=
  ["EC PRIVATE KEY", "PRIVATE KEY", "ENCRYPTED PRIVATE KEY"]

/-- Candidate label list of `pemImportEddsaPrivateKey`. -/
def eddsaPrivCandidates : List String :=
  ["PRIVATE KEY", "ENCRYPTED PRIVATE KEY"]

/-- Candidate label list of `pemImportRsaPublicKey`. -/
def rsaPubCandidates : List String := ["RSA PUBLIC KEY", "PUBLIC KEY"]

/-- A benign concrete environment: every sizing pass fails with
`ERROR_END_OF_FILE`, every other collaborator succeeds. -/
def baseEnv : Env where
  pemEncryptedKeySupport := true
  decodeSize := fun _ => ⟨.ERROR_END_OF_FILE, 0⟩
  decodeFill := fun _ => ⟨.NO_ERROR, [1, 2], ⟨""⟩⟩
  allocOk := fun _ => true
  pemDecryptMessage := fun _ _ pl => ⟨.NO_ERROR, pl⟩
  pkcs5Decrypt := fun _ _ pl => ⟨.NO_ERROR, pl⟩
  pkcs8ParseRsaPrivateKey := fun _ => ⟨.NO_ERROR, 0⟩
  pkcs8ParseDsaPrivateKey := fun _ => ⟨.NO_ERROR, 0⟩
  pkcs8ParseEcPrivateKey := fun _ => ⟨.NO_ERROR, 0⟩
  pkcs8ParsePrivateKeyInfo := fun _ => ⟨.NO_ERROR, 0⟩
  pkcs8ParseEncryptedPrivateKeyInfo := fun _ => ⟨.NO_ERROR, ⟨0, [5]⟩⟩
  pkcs8ImportRsaPrivateKey := fun _ _ => ⟨.NO_ERROR, [9]⟩
  pkcs8ImportDsaPrivateKey := fun _ _ => ⟨.NO_ERROR, [9]⟩
  pkcs8ImportEcPrivateKey := fun _ _ => ⟨.NO_ERROR, [9]⟩
  pkcs8ImportEddsaPrivateKey := fun _ _ => ⟨.NO_ERROR, [9]⟩
  x509ParseRsaPublicKey := fun _ => ⟨.NO_ERROR, 0⟩
  x509ParseSubjectPublicKeyInfo := fun _ => ⟨.NO_ERROR, 0⟩
  x509ParseEcParameters := fun _ => ⟨.NO_ERROR, 0⟩
  x509ImportRsaPublicKey := fun _ _ => ⟨.NO_ERROR, [9]⟩
  x509ImportDsaPublicKey := fun _ _ => ⟨.NO_ERROR, [9]⟩
  x509ImportEcPublicKey := fun _ _ => ⟨.NO_ERROR, [9]⟩
  x509ImportEddsaPublicKey := fun _ _ => ⟨.NO_ERROR, [9]⟩
  x509ImportEcParameters := fun _ _ => ⟨.NO_ERROR, [9]⟩
  x509GetPublicKeyType := fun _ => .X509_KEY_TYPE_RSA
  asn1ReadSequence := fun _ => ⟨.NO_ERROR, ⟨[], 0, 0⟩⟩
  asn1ReadMpi := fun _ _ => ⟨.NO_ERROR, ⟨[], 0, 0⟩, [3]⟩

/-- Concrete environment in which exactly the label `l` matches the
sizing pass. -/
def envOnly (l : String) : Env :=
  { baseEnv with
    decodeSize := fun x =>
      if x = l then ⟨.NO_ERROR, 4⟩ else ⟨.ERROR_END_OF_FILE, 0⟩ }

/-- Modelled from the spec: the behaviour of the armor decoder
`pemDecodeFile` (a collaborator outside the repository slice, §6) on a
NULL/empty input — it "fails with `EndOfFile`-class error when `label` is
absent from `rawText`", and an empty text contains no label at all, so
every sizing pass fails with `ERROR_END_OF_FILE`. -/
def nullInputEnv : Env :=
  { baseEnv with decodeSize := fun _ => ⟨.ERROR_END_OF_FILE, 0⟩ }

/-- Concrete environment for the disabled-encrypted-key-support scenario:
`PEM_ENCRYPTED_KEY_SUPPORT` is off and exactly the
`"ENCRYPTED PRIVATE KEY"` label matches. -/
def envEncOff : Env :=
  { envOnly "ENCRYPTED PRIVATE KEY" with pemEncryptedKeySupport := false }

/-- Helper: `sizeLabels` distributes over list append. -/
lemma sizeLabels_append (a b : List Event) :
    sizeLabels (a ++ b) = sizeLabels a ++ sizeLabels b := by
  simp [sizeLabels]

/-- Helper: `withSize` prepends one sizing event. -/
lemma sizeLabels_withSize (l : String) (r : ImportResult) :
    sizeLabels (withSize l r).trace = l :: sizeLabels r.trace := by
  simp [sizeLabels, withSize, Event.sizeLabel]

/-- Helper: the error epilogue does not change the returned error code. -/
lemma finishKey_error (free : KeyData → KeyData) (r : ImportResult) :
    (finishKey free r).error = r.error := by
  unfold finishKey; split <;> rfl

/-- Helper: the error epilogue adds no sizing event. -/
lemma finishKey_sizeLabels (free : KeyData → KeyData) (r : ImportResult) :
    sizeLabels (finishKey free r).trace = sizeLabels r.trace := by
  unfold finishKey; split
  · rfl
  · simp [sizeLabels_append, sizeLabels, Event.sizeLabel]

/-- Helper: on an error the epilogue applies the free routine to the key
and records the free event. -/
lemma finishKey_fail (free : KeyData → KeyData) (r : ImportResult)
    (h : (finishKey free r).error ≠ .NO_ERROR) :
    (finishKey free r).key = free r.key ∧
      Event.freeKey ∈ (finishKey free r).trace := by
  unfold finishKey at h ⊢
  by_cases hc : r.error = .NO_ERROR
  · rw [if_pos hc] at h
    exact absurd hc h
  · rw [if_neg hc]
    simp

/-- Helper: membership in a `withSize` trace. -/
lemma mem_withSize (e : Event) (l : String) (r : ImportResult) :
    e ∈ (withSize l r).trace ↔ e = .sizeAttempt l ∨ e ∈ r.trace := by
  simp [withSize]

/-- Helper: membership of a non-free event in a `finishKey` trace. -/
lemma mem_finishKey (e : Event) (free : KeyData → KeyData) (r : ImportResult)
    (h : e ≠ .freeKey) :
    e ∈ (finishKey free r).trace ↔ e ∈ r.trace := by
  unfold finishKey; split
  · exact Iff.rfl
  · simp [h]

/-- Helper: a `parseImportBranch` makes no sizing attempt. -/
lemma parseImportBranch_sizeLabels (env : Env) (label parseName : String)
    (parse : Payload → ParseResult) (imp : Nat → KeyData → KeyResult)
    (key : KeyData) (n : Nat) :
    sizeLabels (parseImportBranch env label parseName parse imp key n).trace = [] := by
  unfold parseImportBranch
  dsimp only
  repeat' split
  all_goals simp [sizeLabels, Event.sizeLabel]

/-- Helper: a `legacyPrivBranch` makes no sizing attempt. -/
lemma legacyPrivBranch_sizeLabels (env : Env) (label parseName : String)
    (parse : Payload → ParseResult) (imp : Nat → KeyData → KeyResult)
    (password : Option String) (key : KeyData) (n : Nat) :
    sizeLabels (legacyPrivBranch env label parseName parse imp password key n).trace
      = [] := by
  unfold legacyPrivBranch
  dsimp only
  repeat' split
  all_goals simp [sizeLabels, Event.sizeLabel]

/-- Helper: an `encryptedPrivBranch` makes no sizing attempt. -/
lemma encryptedPrivBranch_sizeLabels (env : Env)
    (imp : Nat → KeyData → KeyResult) (password : Option String)
    (key : KeyData) (n : Nat) :
    sizeLabels (encryptedPrivBranch env imp password key n).trace = [] := by
  unfold encryptedPrivBranch
  dsimp only
  repeat' split
  all_goals simp [sizeLabels, Event.sizeLabel]

/-- Helper: a legacy algorithm-specific branch never calls `pkcs5Decrypt`. -/
lemma legacyPrivBranch_no_pkcs5 (env : Env) (label parseName : String)
    (parse : Payload → ParseResult) (imp : Nat → KeyData → KeyResult)
    (password : Option String) (key : KeyData) (n : Nat) (d : Payload) :
    Event.pkcs5 d ∉
      (legacyPrivBranch env label parseName parse imp password key n).trace := by
  unfold legacyPrivBranch
  dsimp only
  repeat' split
  all_goals simp

/-- Helper: a legacy algorithm-specific branch calls `pemDecryptMessage`
only when the header's `Proc-Type` type field equals `"ENCRYPTED"`. -/
lemma legacyPrivBranch_pemDecrypt (env : Env) (label parseName : String)
    (parse : Payload → ParseResult) (imp : Nat → KeyData → KeyResult)
    (password : Option String) (key : KeyData) (n : Nat) :
    Event.pemDecrypt ∈
        (legacyPrivBranch env label parseName parse imp password key n).trace →
      (env.decodeFill label).header.procType = "ENCRYPTED" := by
  unfold legacyPrivBranch
  dsimp only
  repeat' split
  all_goals intro hmem
  all_goals simp_all [pemCompareString]

/-- Helper: a legacy algorithm-specific branch does not read the password
when the header carries no `"ENCRYPTED"` marker. -/
lemma legacyPrivBranch_password (env : Env) (label parseName : String)
    (parse : Payload → ParseResult) (imp : Nat → KeyData → KeyResult)
    (key : KeyData) (n : Nat)
    (h : (env.decodeFill label).header.procType ≠ "ENCRYPTED")
    (pw1 pw2 : Option String) :
    legacyPrivBranch env label parseName parse imp pw1 key n =
      legacyPrivBranch env label parseName parse imp pw2 key n := by
  unfold legacyPrivBranch
  dsimp only
  have hc : pemCompareString (env.decodeFill label).header.procType "ENCRYPTED"
      = false := by
    simp [pemCompareString, h]
  simp [hc]

/-- Helper: a `parseImportBranch` calls neither decryption primitive. -/
lemma parseImportBranch_no_decrypt (env : Env) (label parseName : String)
    (parse : Payload → ParseResult) (imp : Nat → KeyData → KeyResult)
    (key : KeyData) (n : Nat) (d : Payload) :
    Event.pemDecrypt ∉ (parseImportBranch env label parseName parse imp key n).trace ∧
      Event.pkcs5 d ∉ (parseImportBranch env label parseName parse imp key n).trace := by
  unfold parseImportBranch
  dsimp only
  repeat' split
  all_goals simp

/-- Helper: the payload a `parseImportBranch` hands to its structural
parser is exactly the filling-pass payload, unchanged. -/
lemma parseImportBranch_parse (env : Env) (label parseName : String)
    (parse : Payload → ParseResult) (imp : Nat → KeyData → KeyResult)
    (key : KeyData) (n : Nat) (nm : String) (pl : Payload) :
    Event.parseEvt nm pl ∈ (parseImportBranch env label parseName parse imp key n).trace →
      nm = parseName ∧ pl = (env.decodeFill label).payload := by
  unfold parseImportBranch
  dsimp only
  repeat' split
  all_goals intro hmem
  all_goals simp_all

/-- Helper: an `encryptedPrivBranch` never calls `pemDecryptMessage`. -/
lemma encryptedPrivBranch_no_pemDecrypt (env : Env)
    (imp : Nat → KeyData → KeyResult) (password : Option String)
    (key : KeyData) (n : Nat) :
    Event.pemDecrypt ∉ (encryptedPrivBranch env imp password key n).trace := by
  unfold encryptedPrivBranch
  dsimp only
  repeat' split
  all_goals simp

/-- Helper: what an `encryptedPrivBranch` decrypts with `pkcs5Decrypt` is
exactly the `encryptedData` field of the successfully parsed
`EncryptedPrivateKeyInfo` envelope. -/
lemma encryptedPrivBranch_pkcs5 (env : Env)
    (imp : Nat → KeyData → KeyResult) (password : Option String)
    (key : KeyData) (n : Nat) (d : Payload) :
    Event.pkcs5 d ∈ (encryptedPrivBranch env imp password key n).trace →
      (env.pkcs8ParseEncryptedPrivateKeyInfo
          (env.decodeFill "ENCRYPTED PRIVATE KEY").payload).error = .NO_ERROR ∧
        d = (env.pkcs8ParseEncryptedPrivateKeyInfo
            (env.decodeFill "ENCRYPTED PRIVATE KEY").payload).info.encryptedData := by
  unfold encryptedPrivBranch
  dsimp only
  repeat' split
  all_goals intro hmem
  all_goals simp_all

/-- Helper: the sizing attempts of the `pemImportRsaPrivateKey` body are
the candidates attempted in priority order up to the first match. -/
lemma pemImportRsaPrivateKeyBody_sizeLabels (env : Env)
    (password : Option String) (key : KeyData) :
    sizeLabels (pemImportRsaPrivateKeyBody env password key).trace
      = attemptedLabels env rsaPrivCandidates := by
  unfold pemImportRsaPrivateKeyBody
  dsimp only
  repeat' split
  all_goals try simp only [sizeLabels_withSize, legacyPrivBranch_sizeLabels,
    parseImportBranch_sizeLabels, encryptedPrivBranch_sizeLabels]
  all_goals simp [attemptedLabels, rsaPrivCandidates, sizeLabels, Event.sizeLabel, *]

/-- Helper: sizing attempts of the `pemImportDsaPrivateKey` body. -/
lemma pemImportDsaPrivateKeyBody_sizeLabels (env : Env)
    (password : Option String) (key : KeyData) :
    sizeLabels (pemImportDsaPrivateKeyBody env password key).trace
      = attemptedLabels env dsaPrivCandidates := by
  unfold pemImportDsaPrivateKeyBody
  dsimp only
  repeat' split
  all_goals try simp only [sizeLabels_withSize, legacyPrivBranch_sizeLabels,
    parseImportBranch_sizeLabels, encryptedPrivBranch_sizeLabels]
  all_goals simp [attemptedLabels, dsaPrivCandidates, sizeLabels, Event.sizeLabel, *]

/-- Helper: sizing attempts of the `pemImportEcPrivateKey` body. -/
lemma pemImportEcPrivateKeyBody_sizeLabels (env : Env)
    (password : Option String) (key : KeyData) :
    sizeLabels (pemImportEcPrivateKeyBody env password key).trace
      = attemptedLabels env ecPrivCandidates := by
  unfold pemImportEcPrivateKeyBody
  dsimp only
  repeat' split
  all_goals try simp only [sizeLabels_withSize, legacyPrivBranch_sizeLabels,
    parseImportBranch_sizeLabels, encryptedPrivBranch_sizeLabels]
  all_goals simp [attemptedLabels, ecPrivCandidates, sizeLabels, Event.sizeLabel, *]

/-- Helper: sizing attempts of the `pemImportEddsaPrivateKey` body. -/
lemma pemImportEddsaPrivateKeyBody_sizeLabels (env : Env)
    (password : Option String) (key : KeyData) :
    sizeLabels (pemImportEddsaPrivateKeyBody env password key).trace
      = attemptedLabels env eddsaPrivCandidates := by
  unfold pemImportEddsaPrivateKeyBody
  dsimp only
  repeat' split
  all_goals try simp only [sizeLabels_withSize, legacyPrivBranch_sizeLabels,
    parseImportBranch_sizeLabels, encryptedPrivBranch_sizeLabels]
  all_goals simp [attemptedLabels, eddsaPrivCandidates, sizeLabels, Event.sizeLabel, *]

/-- Helper: sizing attempts of the `pemImportRsaPublicKey` body. -/
lemma pemImportRsaPublicKeyBody_sizeLabels (env : Env) (key : KeyData) :
    sizeLabels (pemImportRsaPublicKeyBody env key).trace
      = attemptedLabels env rsaPubCandidates := by
  unfold pemImportRsaPublicKeyBody
  dsimp only
  repeat' split
  all_goals try simp only [sizeLabels_withSize, parseImportBranch_sizeLabels]
  all_goals simp [attemptedLabels, rsaPubCandidates, sizeLabels, Event.sizeLabel, *]

/-- Helper: the `pemImportDsaPublicKey` body only ever attempts the
generic `"PUBLIC KEY"` label. -/
lemma pemImportDsaPublicKeyBody_sizeLabels (env : Env) (key : KeyData) :
    sizeLabels (pemImportDsaPublicKeyBody env key).trace = ["PUBLIC KEY"] := by
  unfold pemImportDsaPublicKeyBody
  dsimp only
  repeat' split
  all_goals try simp only [sizeLabels_withSize, parseImportBranch_sizeLabels]
  all_goals simp [sizeLabels, Event.sizeLabel]

/-- Helper: the `pemImportEcPublicKey` body only ever attempts the generic
`"PUBLIC KEY"` label. -/
lemma pemImportEcPublicKeyBody_sizeLabels (env : Env) (key : KeyData) :
    sizeLabels (pemImportEcPublicKeyBody env key).trace = ["PUBLIC KEY"] := by
  unfold pemImportEcPublicKeyBody
  dsimp only
  repeat' split
  all_goals try simp only [sizeLabels_withSize, parseImportBranch_sizeLabels]
  all_goals simp [sizeLabels, Event.sizeLabel]

/-- Helper: the `pemImportEddsaPublicKey` body only ever attempts the
generic `"PUBLIC KEY"` label. -/
lemma pemImportEddsaPublicKeyBody_sizeLabels (env : Env) (key : KeyData) :
    sizeLabels (pemImportEddsaPublicKeyBody env key).trace = ["PUBLIC KEY"] := by
  unfold pemImportEddsaPublicKeyBody
  dsimp only
  repeat' split
  all_goals try simp only [sizeLabels_withSize, parseImportBranch_sizeLabels]
  all_goals simp [sizeLabels, Event.sizeLabel]

/-- Helper: the error epilogue does not change the first trace event. -/
lemma finishKey_head (free : KeyData → KeyData) (r : ImportResult) (e : Event)
    (h : r.trace.head? = some e) :
    (finishKey free r).trace.head? = some e := by
  unfold finishKey
  split
  · exact h
  · cases ht : r.trace with
    | nil => simp [ht] at h
    | cons a t =>
        simp [ht] at h
        simp [ht, h]

/-- Helper: the first collaborator call of the `pemImportRsaPrivateKey`
body is the sizing pass for `"RSA PRIVATE KEY"`. -/
lemma pemImportRsaPrivateKeyBody_head (env : Env) (password : Option String)
    (key : KeyData) :
    (pemImportRsaPrivateKeyBody env password key).trace.head?
      = some (.sizeAttempt "RSA PRIVATE KEY") := by
  unfold pemImportRsaPrivateKeyBody
  dsimp only
  repeat' split
  all_goals simp [withSize]

/-- Helper: first collaborator call of the `pemImportDsaPrivateKey` body. -/
lemma pemImportDsaPrivateKeyBody_head (env : Env) (password : Option String)
    (key : KeyData) :
    (pemImportDsaPrivateKeyBody env password key).trace.head?
      = some (.sizeAttempt "DSA PRIVATE KEY") := by
  unfold pemImportDsaPrivateKeyBody
  dsimp only
  repeat' split
  all_goals simp [withSize]

/-- Helper: first collaborator call of the `pemImportEcPrivateKey` body. -/
lemma pemImportEcPrivateKeyBody_head (env : Env) (password : Option String)
    (key : KeyData) :
    (pemImportEcPrivateKeyBody env password key).trace.head?
      = some (.sizeAttempt "EC PRIVATE KEY") := by
  unfold pemImportEcPrivateKeyBody
  dsimp only
  repeat' split
  all_goals simp [withSize]

/-- Helper: first collaborator call of the `pemImportEddsaPrivateKey`
body. -/
lemma pemImportEddsaPrivateKeyBody_head (env : Env) (password : Option String)
    (key : KeyData) :
    (pemImportEddsaPrivateKeyBody env password key).trace.head?
      = some (.sizeAttempt "PRIVATE KEY") := by
  unfold pemImportEddsaPrivateKeyBody
  dsimp only
  repeat' split
  all_goals simp [withSize]

/-- Helper: first collaborator call of the `pemImportRsaPublicKey` body. -/
lemma pemImportRsaPublicKeyBody_head (env : Env) (key : KeyData) :
    (pemImportRsaPublicKeyBody env key).trace.head?
      = some (.sizeAttempt "RSA PUBLIC KEY") := by
  unfold pemImportRsaPublicKeyBody
  dsimp only
  repeat' split
  all_goals simp [withSize]

/-- Helper: first collaborator call of the `pemImportDsaPublicKey` body. -/
lemma pemImportDsaPublicKeyBody_head (env : Env) (key : KeyData) :
    (pemImportDsaPublicKeyBody env key).trace.head?
      = some (.sizeAttempt "PUBLIC KEY") := by
  unfold pemImportDsaPublicKeyBody
  dsimp only
  repeat' split
  all_goals simp [withSize]

/-- Helper: first collaborator call of the `pemImportEcPublicKey` body. -/
lemma pemImportEcPublicKeyBody_head (env : Env) (key : KeyData) :
    (pemImportEcPublicKeyBody env key).trace.head?
      = some (.sizeAttempt "PUBLIC KEY") := by
  unfold pemImportEcPublicKeyBody
  dsimp only
  repeat' split
  all_goals simp [withSize]

/-- Helper: first collaborator call of the `pemImportEddsaPublicKey`
body. -/
lemma pemImportEddsaPublicKeyBody_head (env : Env) (key : KeyData) :
    (pemImportEddsaPublicKeyBody env key).trace.head?
      = some (.sizeAttempt "PUBLIC KEY") := by
  unfold pemImportEddsaPublicKeyBody
  dsimp only
  repeat' split
  all_goals simp [withSize]

/-- Helper: first collaborator call of the `pemImportEcParameters` body. -/
lemma pemImportEcParametersBody_head (env : Env) (params : KeyData) :
    (pemImportEcParametersBody env params).trace.head?
      = some (.sizeAttempt "EC PARAMETERS") := by
  unfold pemImportEcParametersBody
  dsimp only
  repeat' split
  all_goals simp [withSize]

/-- Helper: first collaborator call of the `pemImportDhParameters` body. -/
lemma pemImportDhParametersBody_head (env : Env) (params : DhParameters) :
    (pemImportDhParametersBody env params).trace.head?
      = some (.sizeAttempt "DH PARAMETERS") := by
  unfold pemImportDhParametersBody
  dsimp only
  repeat' split
  all_goals simp

/-- Helper: candidate lists with no matching label mean every sizing pass
fails. -/
lemma firstMatch_none_iff (env : Env) (ls : List String) :
    firstMatch env ls = none ↔
      ∀ l ∈ ls, (env.decodeSize l).error ≠ .NO_ERROR := by
  induction ls with
  | nil => simp [firstMatch]
  | cons a t ih =>
      by_cases h : (env.decodeSize a).error = .NO_ERROR <;>
        simp [firstMatch, h, ih]

/-- Claim C2: for every private-key import call (`pemImportRsaPrivateKey`,
`pemImportDsaPrivateKey`, `pemImportEcPrivateKey`,
`pemImportEddsaPrivateKey`) and every input, the candidate labels are
attempted in the fixed priority order — the algorithm-specific label
(`"RSA PRIVATE KEY"` / `"DSA PRIVATE KEY"` / `"EC PRIVATE KEY"`; EdDSA has
none), then `"PRIVATE KEY"`, then `"ENCRYPTED PRIVATE KEY"` — stopping at
the first label whose sizing-pass armor-decoding succeeds, and when no
candidate label matches the call fails with `ERROR_END_OF_FILE`. -/
theorem claim_C2_private_label_priority (env : Env) (inputNull : Bool)
    (length : Nat) (password : Option String) (keyNull : Bool) (key : KeyData)
    (hp : ¬(inputNull = true ∧ length ≠ 0)) (hk : ¬(keyNull = true)) :
    (sizeLabels (pemImportRsaPrivateKey env inputNull length password keyNull key).trace
        = attemptedLabels env rsaPrivCandidates ∧
      (firstMatch env rsaPrivCandidates = none →
        (pemImportRsaPrivateKey env inputNull length password keyNull key).error
          = .ERROR_END_OF_FILE)) ∧
    (sizeLabels (pemImportDsaPrivateKey env inputNull length password keyNull key).trace
        = attemptedLabels env dsaPrivCandidates ∧
      (firstMatch env dsaPrivCandidates = none →
        (pemImportDsaPrivateKey env inputNull length password keyNull key).error
          = .ERROR_END_OF_FILE)) ∧
    (sizeLabels (pemImportEcPrivateKey env inputNull length password keyNull key).trace
        = attemptedLabels env ecPrivCandidates ∧
      (firstMatch env ecPrivCandidates = none →
        (pemImportEcPrivateKey env inputNull length password keyNull key).error
          = .ERROR_END_OF_FILE)) ∧
    (sizeLabels (pemImportEddsaPrivateKey env inputNull length password keyNull key).trace
        = attemptedLabels env eddsaPrivCandidates ∧
      (firstMatch env eddsaPrivCandidates = none →
        (pemImportEddsaPrivateKey env inputNull length password keyNull key).error
          = .ERROR_END_OF_FILE)) := by
  refine ⟨⟨?_, ?_⟩, ⟨?_, ?_⟩, ⟨?_, ?_⟩, ⟨?_, ?_⟩⟩
  · unfold pemImportRsaPrivateKey
    rw [if_neg hp, if_neg hk, finishKey_sizeLabels]
    exact pemImportRsaPrivateKeyBody_sizeLabels env password key
  · intro hnone
    rw [firstMatch_none_iff] at hnone
    have h1 := hnone "RSA PRIVATE KEY" (by simp [rsaPrivCandidates])
    have h2 := hnone "PRIVATE KEY" (by simp [rsaPrivCandidates])
    have h3 := hnone "ENCRYPTED PRIVATE KEY" (by simp [rsaPrivCandidates])
    unfold pemImportRsaPrivateKey
    rw [if_neg hp, if_neg hk, finishKey_error]
    unfold pemImportRsaPrivateKeyBody
    dsimp only
    rw [if_neg h1, if_neg h2, if_neg h3]
  · unfold pemImportDsaPrivateKey
    rw [if_neg hp, if_neg hk, finishKey_sizeLabels]
    exact pemImportDsaPrivateKeyBody_sizeLabels env password key
  · intro hnone
    rw [firstMatch_none_iff] at hnone
    have h1 := hnone "DSA PRIVATE KEY" (by simp [dsaPrivCandidates])
    have h2 := hnone "PRIVATE KEY" (by simp [dsaPrivCandidates])
    have h3 := hnone "ENCRYPTED PRIVATE KEY" (by simp [dsaPrivCandidates])
    unfold pemImportDsaPrivateKey
    rw [if_neg hp, if_neg hk, finishKey_error]
    unfold pemImportDsaPrivateKeyBody
    dsimp only
    rw [if_neg h1, if_neg h2, if_neg h3]
  · unfold pemImportEcPrivateKey
    rw [if_neg hp, if_neg hk, finishKey_sizeLabels]
    exact pemImportEcPrivateKeyBody_sizeLabels env password key
  · intro hnone
    rw [firstMatch_none_iff] at hnone
    have h1 := hnone "EC PRIVATE KEY" (by simp [ecPrivCandidates])
    have h2 := hnone "PRIVATE KEY" (by simp [ecPrivCandidates])
    have h3 := hnone "ENCRYPTED PRIVATE KEY" (by simp [ecPrivCandidates])
    unfold pemImportEcPrivateKey
    rw [if_neg hp, if_neg hk, finishKey_error]
    unfold pemImportEcPrivateKeyBody
    dsimp only
    rw [if_neg h1, if_neg h2, if_neg h3]
  · unfold pemImportEddsaPrivateKey
    rw [if_neg hp, if_neg hk, finishKey_sizeLabels]
    exact pemImportEddsaPrivateKeyBody_sizeLabels env password key
  · intro hnone
    rw [firstMatch_none_iff] at hnone
    have h1 := hnone "PRIVATE KEY" (by simp [eddsaPrivCandidates])
    have h2 := hnone "ENCRYPTED PRIVATE KEY" (by simp [eddsaPrivCandidates])
    unfold pemImportEddsaPrivateKey
    rw [if_neg hp, if_neg hk, finishKey_error]
    unfold pemImportEddsaPrivateKeyBody
    dsimp only
    rw [if_neg h1, if_neg h2]

/-- Witness for claim C2: at a concrete environment where no label
matches, the four private importers attempt their full candidate lists and
fail with `ERROR_END_OF_FILE`. -/
theorem claim_C2_private_label_priority_witness :
    sizeLabels (pemImportRsaPrivateKey baseEnv false 0 none false []).trace
        = attemptedLabels baseEnv rsaPrivCandidates ∧
      (pemImportRsaPrivateKey baseEnv false 0 none false []).error
        = .ERROR_END_OF_FILE ∧
      (pemImportDsaPrivateKey baseEnv false 0 none false []).error
        = .ERROR_END_OF_FILE ∧
      (pemImportEcPrivateKey baseEnv false 0 none false []).error
        = .ERROR_END_OF_FILE ∧
      (pemImportEddsaPrivateKey baseEnv false 0 none false []).error
        = .ERROR_END_OF_FILE := by
  have h := claim_C2_private_label_priority baseEnv false 0 none false []
    (by simp) (by simp)
  exact ⟨h.1.1, h.1.2 rfl, h.2.1.2 rfl, h.2.2.1.2 rfl, h.2.2.2.2 rfl⟩

/-- Claim C5: for every private-key import call, once the sizing-pass
armor-decode for a candidate label succeeds, no later candidate label is
attempted, and the call returns the matched branch's error (whatever stage
inside that branch failed) rather than falling through to the next
candidate or to `ERROR_END_OF_FILE`; at most one candidate is matched per
call. -/
theorem claim_C5_first_match_wins (env : Env) (inputNull : Bool)
    (length : Nat) (password : Option String) (keyNull : Bool) (key : KeyData)
    (hp : ¬(inputNull = true ∧ length ≠ 0)) (hk : ¬(keyNull = true)) :
    ((env.decodeSize "RSA PRIVATE KEY").error = .NO_ERROR →
      sizeLabels (pemImportRsaPrivateKey env inputNull length password keyNull key).trace
          = ["RSA PRIVATE KEY"] ∧
        (pemImportRsaPrivateKey env inputNull length password keyNull key).error
          = (legacyPrivBranch env "RSA PRIVATE KEY" "pkcs8ParseRsaPrivateKey"
              env.pkcs8ParseRsaPrivateKey env.pkcs8ImportRsaPrivateKey password key
              (env.decodeSize "RSA PRIVATE KEY").size).error) ∧
    ((env.decodeSize "RSA PRIVATE KEY").error ≠ .NO_ERROR →
      (env.decodeSize "PRIVATE KEY").error = .NO_ERROR →
      sizeLabels (pemImportRsaPrivateKey env inputNull length password keyNull key).trace
          = ["RSA PRIVATE KEY", "PRIVATE KEY"] ∧
        (pemImportRsaPrivateKey env inputNull length password keyNull key).error
          = (parseImportBranch env "PRIVATE KEY" "pkcs8ParsePrivateKeyInfo"
              env.pkcs8ParsePrivateKeyInfo env.pkcs8ImportRsaPrivateKey key
              (env.decodeSize "PRIVATE KEY").size).error) ∧
    ((env.decodeSize "RSA PRIVATE KEY").error ≠ .NO_ERROR →
      (env.decodeSize "PRIVATE KEY").error ≠ .NO_ERROR →
      (env.decodeSize "ENCRYPTED PRIVATE KEY").error = .NO_ERROR →
      sizeLabels (pemImportRsaPrivateKey env inputNull length password keyNull key).trace
          = ["RSA PRIVATE KEY", "PRIVATE KEY", "ENCRYPTED PRIVATE KEY"] ∧
        (pemImportRsaPrivateKey env inputNull length password keyNull key).error
          = (encryptedPrivBranch env env.pkcs8ImportRsaPrivateKey password key
              (env.decodeSize "ENCRYPTED PRIVATE KEY").size).error) ∧
    ((env.decodeSize "DSA PRIVATE KEY").error = .NO_ERROR →
      sizeLabels (pemImportDsaPrivateKey env inputNull length password keyNull key).trace
          = ["DSA PRIVATE KEY"] ∧
        (pemImportDsaPrivateKey env inputNull length password keyNull key).error
          = (legacyPrivBranch env "DSA PRIVATE KEY" "pkcs8ParseDsaPrivateKey"
              env.pkcs8ParseDsaPrivateKey env.pkcs8ImportDsaPrivateKey password key
              (env.decodeSize "DSA PRIVATE KEY").size).error) ∧
    ((env.decodeSize "DSA PRIVATE KEY").error ≠ .NO_ERROR →
      (env.decodeSize "PRIVATE KEY").error = .NO_ERROR →
      sizeLabels (pemImportDsaPrivateKey env inputNull length password keyNull key).trace
          = ["DSA PRIVATE KEY", "PRIVATE KEY"] ∧
        (pemImportDsaPrivateKey env inputNull length password keyNull key).error
          = (parseImportBranch env "PRIVATE KEY" "pkcs8ParsePrivateKeyInfo"
              env.pkcs8ParsePrivateKeyInfo env.pkcs8ImportDsaPrivateKey key
              (env.decodeSize "PRIVATE KEY").size).error) ∧
    ((env.decodeSize "EC PRIVATE KEY").error = .NO_ERROR →
      sizeLabels (pemImportEcPrivateKey env inputNull length password keyNull key).trace
          = ["EC PRIVATE KEY"] ∧
        (pemImportEcPrivateKey env inputNull length password keyNull key).error
          = (legacyPrivBranch env "EC PRIVATE KEY" "pkcs8ParseEcPrivateKey"
              env.pkcs8ParseEcPrivateKey env.pkcs8ImportEcPrivateKey password key
              (env.decodeSize "EC PRIVATE KEY").size).error) ∧
    ((env.decodeSize "PRIVATE KEY").error = .NO_ERROR →
      sizeLabels (pemImportEddsaPrivateKey env inputNull length password keyNull key).trace
          = ["PRIVATE KEY"] ∧
        (pemImportEddsaPrivateKey env inputNull length password keyNull key).error
          = (parseImportBranch env "PRIVATE KEY" "pkcs8ParsePrivateKeyInfo"
              env.pkcs8ParsePrivateKeyInfo env.pkcs8ImportEddsaPrivateKey key
              (env.decodeSize "PRIVATE KEY").size).error) := by
  refine ⟨?_, ?_, ?_, ?_, ?_, ?_, ?_⟩
  · intro h1
    constructor
    · unfold pemImportRsaPrivateKey
      rw [if_neg hp, if_neg hk, finishKey_sizeLabels,
        pemImportRsaPrivateKeyBody_sizeLabels]
      simp [attemptedLabels, rsaPrivCandidates, h1]
    · unfold pemImportRsaPrivateKey
      rw [if_neg hp, if_neg hk, finishKey_error]
      unfold pemImportRsaPrivateKeyBody
      dsimp only
      rw [if_pos h1]
      simp [withSize]
  · intro h1 h2
    constructor
    · unfold pemImportRsaPrivateKey
      rw [if_neg hp, if_neg hk, finishKey_sizeLabels,
        pemImportRsaPrivateKeyBody_sizeLabels]
      simp [attemptedLabels, rsaPrivCandidates, h1, h2]
    · unfold pemImportRsaPrivateKey
      rw [if_neg hp, if_neg hk, finishKey_error]
      unfold pemImportRsaPrivateKeyBody
      dsimp only
      rw [if_neg h1, if_pos h2]
      simp [withSize]
  · intro h1 h2 h3
    constructor
    · unfold pemImportRsaPrivateKey
      rw [if_neg hp, if_neg hk, finishKey_sizeLabels,
        pemImportRsaPrivateKeyBody_sizeLabels]
      simp [attemptedLabels, rsaPrivCandidates, h1, h2, h3]
    · unfold pemImportRsaPrivateKey
      rw [if_neg hp, if_neg hk, finishKey_error]
      unfold pemImportRsaPrivateKeyBody
      dsimp only
      rw [if_neg h1, if_neg h2, if_pos h3]
      simp [withSize]
  · intro h1
    constructor
    · unfold pemImportDsaPrivateKey
      rw [if_neg hp, if_neg hk, finishKey_sizeLabels,
        pemImportDsaPrivateKeyBody_sizeLabels]
      simp [attemptedLabels, dsaPrivCandidates, h1]
    · unfold pemImportDsaPrivateKey
      rw [if_neg hp, if_neg hk, finishKey_error]
      unfold pemImportDsaPrivateKeyBody
      dsimp only
      rw [if_pos h1]
      simp [withSize]
  · intro h1 h2
    constructor
    · unfold pemImportDsaPrivateKey
      rw [if_neg hp, if_neg hk, finishKey_sizeLabels,
        pemImportDsaPrivateKeyBody_sizeLabels]
      simp [attemptedLabels, dsaPrivCandidates, h1, h2]
    · unfold pemImportDsaPrivateKey
      rw [if_neg hp, if_neg hk, finishKey_error]
      unfold pemImportDsaPrivateKeyBody
      dsimp only
      rw [if_neg h1, if_pos h2]
      simp [withSize]
  · intro h1
    constructor
    · unfold pemImportEcPrivateKey
      rw [if_neg hp, if_neg hk, finishKey_sizeLabels,
        pemImportEcPrivateKeyBody_sizeLabels]
      simp [attemptedLabels, ecPrivCandidates, h1]
    · unfold pemImportEcPrivateKey
      rw [if_neg hp, if_neg hk, finishKey_error]
      unfold pemImportEcPrivateKeyBody
      dsimp only
      rw [if_pos h1]
      simp [withSize]
  · intro h1
    constructor
    · unfold pemImportEddsaPrivateKey
      rw [if_neg hp, if_neg hk, finishKey_sizeLabels,
        pemImportEddsaPrivateKeyBody_sizeLabels]
      simp [attemptedLabels, eddsaPrivCandidates, h1]
    · unfold pemImportEddsaPrivateKey
      rw [if_neg hp, if_neg hk, finishKey_error]
      unfold pemImportEddsaPrivateKeyBody
      dsimp only
      rw [if_pos h1]
      simp [withSize]

/-- Witness for claim C5 at concrete environments matching, respectively,
the algorithm-specific, generic, and encrypted-wrapper labels. -/
theorem claim_C5_first_match_wins_witness :
    (sizeLabels (pemImportRsaPrivateKey (envOnly "RSA PRIVATE KEY") false 0 none
          false []).trace = ["RSA PRIVATE KEY"] ∧
      (pemImportRsaPrivateKey (envOnly "RSA PRIVATE KEY") false 0 none false []).error
        = (legacyPrivBranch (envOnly "RSA PRIVATE KEY") "RSA PRIVATE KEY"
            "pkcs8ParseRsaPrivateKey"
            (envOnly "RSA PRIVATE KEY").pkcs8ParseRsaPrivateKey
            (envOnly "RSA PRIVATE KEY").pkcs8ImportRsaPrivateKey none []
            ((envOnly "RSA PRIVATE KEY").decodeSize "RSA PRIVATE KEY").size).error) ∧
    (sizeLabels (pemImportRsaPrivateKey (envOnly "PRIVATE KEY") false 0 none
          false []).trace = ["RSA PRIVATE KEY", "PRIVATE KEY"] ∧
      (pemImportRsaPrivateKey (envOnly "PRIVATE KEY") false 0 none false []).error
        = (parseImportBranch (envOnly "PRIVATE KEY") "PRIVATE KEY"
            "pkcs8ParsePrivateKeyInfo"
            (envOnly "PRIVATE KEY").pkcs8ParsePrivateKeyInfo
            (envOnly "PRIVATE KEY").pkcs8ImportRsaPrivateKey []
            ((envOnly "PRIVATE KEY").decodeSize "PRIVATE KEY").size).error) ∧
    (sizeLabels (pemImportRsaPrivateKey (envOnly "ENCRYPTED PRIVATE KEY") false 0
          none false []).trace
        = ["RSA PRIVATE KEY", "PRIVATE KEY", "ENCRYPTED PRIVATE KEY"] ∧
      (pemImportRsaPrivateKey (envOnly "ENCRYPTED PRIVATE KEY") false 0 none
          false []).error
        = (encryptedPrivBranch (envOnly "ENCRYPTED PRIVATE KEY")
            (envOnly "ENCRYPTED PRIVATE KEY").pkcs8ImportRsaPrivateKey none []
            ((envOnly "ENCRYPTED PRIVATE KEY").decodeSize
              "ENCRYPTED PRIVATE KEY").size).error) := by
  refine ⟨?_, ?_, ?_⟩
  · exact (claim_C5_first_match_wins (envOnly "RSA PRIVATE KEY") false 0 none
      false [] (by simp) (by simp)).1 (by decide)
  · exact (claim_C5_first_match_wins (envOnly "PRIVATE KEY") false 0 none
      false [] (by simp) (by simp)).2.1 (by decide) (by decide)
  · exact (claim_C5_first_match_wins (envOnly "ENCRYPTED PRIVATE KEY") false 0
      none false [] (by simp) (by simp)).2.2.1 (by decide) (by decide) (by decide)

/-- Claim C7: supplying a password when none is needed is accepted and
ignored — for every input matched by the generic `"PRIVATE KEY"` label, or
by an algorithm-specific legacy label whose header carries no
`"ENCRYPTED"` marker, two calls to the same private-key import function
differing only in the password argument (including a NULL password) return
identical results (same error code and same key field values). -/
theorem claim_C7_password_ignored (env : Env) (inputNull : Bool)
    (length : Nat) (keyNull : Bool) (key : KeyData) (pw1 pw2 : Option String)
    (hp : ¬(inputNull = true ∧ length ≠ 0)) (hk : ¬(keyNull = true)) :
    ((env.decodeSize "RSA PRIVATE KEY").error = .NO_ERROR →
      (env.decodeFill "RSA PRIVATE KEY").header.procType ≠ "ENCRYPTED" →
      pemImportRsaPrivateKey env inputNull length pw1 keyNull key
        = pemImportRsaPrivateKey env inputNull length pw2 keyNull key) ∧
    ((env.decodeSize "RSA PRIVATE KEY").error ≠ .NO_ERROR →
      (env.decodeSize "PRIVATE KEY").error = .NO_ERROR →
      pemImportRsaPrivateKey env inputNull length pw1 keyNull key
        = pemImportRsaPrivateKey env inputNull length pw2 keyNull key) ∧
    ((env.decodeSize "DSA PRIVATE KEY").error = .NO_ERROR →
      (env.decodeFill "DSA PRIVATE KEY").header.procType ≠ "ENCRYPTED" →
      pemImportDsaPrivateKey env inputNull length pw1 keyNull key
        = pemImportDsaPrivateKey env inputNull length pw2 keyNull key) ∧
    ((env.decodeSize "DSA PRIVATE KEY").error ≠ .NO_ERROR →
      (env.decodeSize "PRIVATE KEY").error = .NO_ERROR →
      pemImportDsaPrivateKey env inputNull length pw1 keyNull key
        = pemImportDsaPrivateKey env inputNull length pw2 keyNull key) ∧
    ((env.decodeSize "EC PRIVATE KEY").error = .NO_ERROR →
      (env.decodeFill "EC PRIVATE KEY").header.procType ≠ "ENCRYPTED" →
      pemImportEcPrivateKey env inputNull length pw1 keyNull key
        = pemImportEcPrivateKey env inputNull length pw2 keyNull key) ∧
    ((env.decodeSize "EC PRIVATE KEY").error ≠ .NO_ERROR →
      (env.decodeSize "PRIVATE KEY").error = .NO_ERROR →
      pemImportEcPrivateKey env inputNull length pw1 keyNull key
        = pemImportEcPrivateKey env inputNull length pw2 keyNull key) ∧
    ((env.decodeSize "PRIVATE KEY").error = .NO_ERROR →
      pemImportEddsaPrivateKey env inputNull length pw1 keyNull key
        = pemImportEddsaPrivateKey env inputNull length pw2 keyNull key) := by
  refine ⟨?_, ?_, ?_, ?_, ?_, ?_, ?_⟩
  · intro h1 hhdr
    unfold pemImportRsaPrivateKey pemImportRsaPrivateKeyBody
    dsimp only
    simp only [if_neg hp, if_neg hk, if_pos h1]
    rw [legacyPrivBranch_password env "RSA PRIVATE KEY" "pkcs8ParseRsaPrivateKey"
      env.pkcs8ParseRsaPrivateKey env.pkcs8ImportRsaPrivateKey key
      (env.decodeSize "RSA PRIVATE KEY").size hhdr pw1 pw2]
  · intro h1 h2
    unfold pemImportRsaPrivateKey pemImportRsaPrivateKeyBody
    dsimp only
    simp only [if_neg hp, if_neg hk, if_neg h1, if_pos h2]
  · intro h1 hhdr
    unfold pemImportDsaPrivateKey pemImportDsaPrivateKeyBody
    dsimp only
    simp only [if_neg hp, if_neg hk, if_pos h1]
    rw [legacyPrivBranch_password env "DSA PRIVATE KEY" "pkcs8ParseDsaPrivateKey"
      env.pkcs8ParseDsaPrivateKey env.pkcs8ImportDsaPrivateKey key
      (env.decodeSize "DSA PRIVATE KEY").size hhdr pw1 pw2]
  · intro h1 h2
    unfold pemImportDsaPrivateKey pemImportDsaPrivateKeyBody
    dsimp only
    simp only [if_neg hp, if_neg hk, if_neg h1, if_pos h2]
  · intro h1 hhdr
    unfold pemImportEcPrivateKey pemImportEcPrivateKeyBody
    dsimp only
    simp only [if_neg hp, if_neg hk, if_pos h1]
    rw [legacyPrivBranch_password env "EC PRIVATE KEY" "pkcs8ParseEcPrivateKey"
      env.pkcs8ParseEcPrivateKey env.pkcs8ImportEcPrivateKey key
      (env.decodeSize "EC PRIVATE KEY").size hhdr pw1 pw2]
  · intro h1 h2
    unfold pemImportEcPrivateKey pemImportEcPrivateKeyBody
    dsimp only
    simp only [if_neg hp, if_neg hk, if_neg h1, if_pos h2]
  · intro h1
    unfold pemImportEddsaPrivateKey pemImportEddsaPrivateKeyBody
    dsimp only
    simp only [if_neg hp, if_neg hk, if_pos h1]

/-- Witness for claim C7 at concrete environments: a legacy container with
no encryption marker, and a generic `"PRIVATE KEY"` container,
each imported with a NULL and a non-NULL password. -/
theorem claim_C7_password_ignored_witness :
    pemImportRsaPrivateKey (envOnly "RSA PRIVATE KEY") false 0 none false []
        = pemImportRsaPrivateKey (envOnly "RSA PRIVATE KEY") false 0
            (some "secret") false [] ∧
      pemImportRsaPrivateKey (envOnly "PRIVATE KEY") false 0 none false []
        = pemImportRsaPrivateKey (envOnly "PRIVATE KEY") false 0
            (some "secret") false [] := by
  constructor
  · exact (claim_C7_password_ignored (envOnly "RSA PRIVATE KEY") false 0 false []
      none (some "secret") (by simp) (by simp)).1 (by decide) (by decide)
  · exact (claim_C7_password_ignored (envOnly "PRIVATE KEY") false 0 false []
      none (some "secret") (by simp) (by simp)).2.1 (by decide) (by decide)

/-- Claim C8: for every input in which none of the requested category's
candidate labels occurs, a private-key import call fails with
`ERROR_END_OF_FILE`, and the full result (error code, key state, trace) is
the same whether the password argument is NULL or any non-NULL string. -/
theorem claim_C8_unknown_label_eof (env : Env) (inputNull : Bool)
    (length : Nat) (password : Option String) (keyNull : Bool) (key : KeyData)
    (hp : ¬(inputNull = true ∧ length ≠ 0)) (hk : ¬(keyNull = true)) :
    (firstMatch env rsaPrivCandidates = none →
      (pemImportRsaPrivateKey env inputNull length password keyNull key).error
          = .ERROR_END_OF_FILE ∧
        pemImportRsaPrivateKey env inputNull length password keyNull key
          = pemImportRsaPrivateKey env inputNull length none keyNull key) ∧
    (firstMatch env dsaPrivCandidates = none →
      (pemImportDsaPrivateKey env inputNull length password keyNull key).error
          = .ERROR_END_OF_FILE ∧
        pemImportDsaPrivateKey env inputNull length password keyNull key
          = pemImportDsaPrivateKey env inputNull length none keyNull key) ∧
    (firstMatch env ecPrivCandidates = none →
      (pemImportEcPrivateKey env inputNull length password keyNull key).error
          = .ERROR_END_OF_FILE ∧
        pemImportEcPrivateKey env inputNull length password keyNull key
          = pemImportEcPrivateKey env inputNull length none keyNull key) ∧
    (firstMatch env eddsaPrivCandidates = none →
      (pemImportEddsaPrivateKey env inputNull length password keyNull key).error
          = .ERROR_END_OF_FILE ∧
        pemImportEddsaPrivateKey env inputNull length password keyNull key
          = pemImportEddsaPrivateKey env inputNull length none keyNull key) := by
  refine ⟨?_, ?_, ?_, ?_⟩
  · intro hnone
    rw [firstMatch_none_iff] at hnone
    have h1 := hnone "RSA PRIVATE KEY" (by simp [rsaPrivCandidates])
    have h2 := hnone "PRIVATE KEY" (by simp [rsaPrivCandidates])
    have h3 := hnone "ENCRYPTED PRIVATE KEY" (by simp [rsaPrivCandidates])
    unfold pemImportRsaPrivateKey pemImportRsaPrivateKeyBody
    dsimp only
    simp only [if_neg hp, if_neg hk, if_neg h1, if_neg h2, if_neg h3]
    exact ⟨by rw [finishKey_error], trivial⟩
  · intro hnone
    rw [firstMatch_none_iff] at hnone
    have h1 := hnone "DSA PRIVATE KEY" (by simp [dsaPrivCandidates])
    have h2 := hnone "PRIVATE KEY" (by simp [dsaPrivCandidates])
    have h3 := hnone "ENCRYPTED PRIVATE KEY" (by simp [dsaPrivCandidates])
    unfold pemImportDsaPrivateKey pemImportDsaPrivateKeyBody
    dsimp only
    simp only [if_neg hp, if_neg hk, if_neg h1, if_neg h2, if_neg h3]
    exact ⟨by rw [finishKey_error], trivial⟩
  · intro hnone
    rw [firstMatch_none_iff] at hnone
    have h1 := hnone "EC PRIVATE KEY" (by simp [ecPrivCandidates])
    have h2 := hnone "PRIVATE KEY" (by simp [ecPrivCandidates])
    have h3 := hnone "ENCRYPTED PRIVATE KEY" (by simp [ecPrivCandidates])
    unfold pemImportEcPrivateKey pemImportEcPrivateKeyBody
    dsimp only
    simp only [if_neg hp, if_neg hk, if_neg h1, if_neg h2, if_neg h3]
    exact ⟨by rw [finishKey_error], trivial⟩
  · intro hnone
    rw [firstMatch_none_iff] at hnone
    have h1 := hnone "PRIVATE KEY" (by simp [eddsaPrivCandidates])
    have h2 := hnone "ENCRYPTED PRIVATE KEY" (by simp [eddsaPrivCandidates])
    unfold pemImportEddsaPrivateKey pemImportEddsaPrivateKeyBody
    dsimp only
    simp only [if_neg hp, if_neg hk, if_neg h1, if_neg h2]
    exact ⟨by rw [finishKey_error], trivial⟩

/-- Witness for claim C8 at a concrete environment where no label matches,
with a non-NULL password. -/
theorem claim_C8_unknown_label_eof_witness :
    (pemImportRsaPrivateKey baseEnv false 0 (some "pw") false []).error
        = .ERROR_END_OF_FILE ∧
      pemImportRsaPrivateKey baseEnv false 0 (some "pw") false []
        = pemImportRsaPrivateKey baseEnv false 0 none false [] ∧
      (pemImportEddsaPrivateKey baseEnv false 0 (some "pw") false []).error
        = .ERROR_END_OF_FILE := by
  have h := claim_C8_unknown_label_eof baseEnv false 0 (some "pw") false []
    (by simp) (by simp)
  exact ⟨(h.1 rfl).1, (h.1 rfl).2, (h.2.2.2 rfl).1⟩

/-- Counterexample to claim C1 as stated: a call rejected by the initial
parameter validation (`input == NULL` with non-zero length) returns the
non-zero error `ERROR_INVALID_PARAMETER` without the key object's free
routine ever being invoked — the key object is returned exactly as it was
passed in. -/
theorem claim_C1_counterexample :
    (pemImportRsaPrivateKey baseEnv true 1 none false [7]).error ≠ .NO_ERROR ∧
      Event.freeKey ∉ (pemImportRsaPrivateKey baseEnv true 1 none false [7]).trace ∧
      (pemImportRsaPrivateKey baseEnv true 1 none false [7]).key = [7] := by
  refine ⟨?_, ?_, ?_⟩ <;> decide

/-- Claim C1 (amended): for every key-import call that passes the initial
parameter checks and returns a non-zero error code, the caller's output
key object's free routine is invoked before the error is returned, leaving
the key object empty; a call rejected by the parameter checks returns
`ERROR_INVALID_PARAMETER` with the key object untouched and no
collaborator called — so in all failing cases no partially-populated key
escapes. -/
theorem claim_C1_cleanup_on_failure (env : Env) (inputNull : Bool)
    (length : Nat) (password : Option String) (outNull : Bool) (key : KeyData)
    (dp : DhParameters) :
    (¬(inputNull = true ∧ length ≠ 0) → ¬(outNull = true) →
      (((pemImportRsaPrivateKey env inputNull length password outNull key).error
          ≠ .NO_ERROR →
        (pemImportRsaPrivateKey env inputNull length password outNull key).key = [] ∧
          Event.freeKey ∈
            (pemImportRsaPrivateKey env inputNull length password outNull key).trace) ∧
      ((pemImportRsaPublicKey env inputNull length outNull key).error ≠ .NO_ERROR →
        (pemImportRsaPublicKey env inputNull length outNull key).key = [] ∧
          Event.freeKey ∈
            (pemImportRsaPublicKey env inputNull length outNull key).trace) ∧
      ((pemImportDsaPrivateKey env inputNull length password outNull key).error
          ≠ .NO_ERROR →
        (pemImportDsaPrivateKey env inputNull length password outNull key).key = [] ∧
          Event.freeKey ∈
            (pemImportDsaPrivateKey env inputNull length password outNull key).trace) ∧
      ((pemImportDsaPublicKey env inputNull length outNull key).error ≠ .NO_ERROR →
        (pemImportDsaPublicKey env inputNull length outNull key).key = [] ∧
          Event.freeKey ∈
            (pemImportDsaPublicKey env inputNull length outNull key).trace) ∧
      ((pemImportEcPrivateKey env inputNull length password outNull key).error
          ≠ .NO_ERROR →
        (pemImportEcPrivateKey env inputNull length password outNull key).key = [] ∧
          Event.freeKey ∈
            (pemImportEcPrivateKey env inputNull length password outNull key).trace) ∧
      ((pemImportEcPublicKey env inputNull length outNull key).error ≠ .NO_ERROR →
        (pemImportEcPublicKey env inputNull length outNull key).key = [] ∧
          Event.freeKey ∈
            (pemImportEcPublicKey env inputNull length outNull key).trace) ∧
      ((pemImportEddsaPrivateKey env inputNull length password outNull key).error
          ≠ .NO_ERROR →
        (pemImportEddsaPrivateKey env inputNull length password outNull key).key
            = [] ∧
          Event.freeKey ∈
            (pemImportEddsaPrivateKey env inputNull length password outNull key).trace) ∧
      ((pemImportEddsaPublicKey env inputNull length outNull key).error ≠ .NO_ERROR →
        (pemImportEddsaPublicKey env inputNull length outNull key).key = [] ∧
          Event.freeKey ∈
            (pemImportEddsaPublicKey env inputNull length outNull key).trace) ∧
      ((pemImportDhParameters env inputNull length outNull dp).error ≠ .NO_ERROR →
        (pemImportDhParameters env inputNull length outNull dp).params
            = ⟨[], []⟩ ∧
          Event.freeKey ∈
            (pemImportDhParameters env inputNull length outNull dp).trace))) ∧
    (inputNull = true ∧ length ≠ 0 →
      pemImportRsaPrivateKey env inputNull length password outNull key
          = ⟨.ERROR_INVALID_PARAMETER, key, []⟩ ∧
        pemImportRsaPublicKey env inputNull length outNull key
          = ⟨.ERROR_INVALID_PARAMETER, key, []⟩ ∧
        pemImportDsaPrivateKey env inputNull length password outNull key
          = ⟨.ERROR_INVALID_PARAMETER, key, []⟩ ∧
        pemImportDsaPublicKey env inputNull length outNull key
          = ⟨.ERROR_INVALID_PARAMETER, key, []⟩ ∧
        pemImportEcPrivateKey env inputNull length password outNull key
          = ⟨.ERROR_INVALID_PARAMETER, key, []⟩ ∧
        pemImportEcPublicKey env inputNull length outNull key
          = ⟨.ERROR_INVALID_PARAMETER, key, []⟩ ∧
        pemImportEddsaPrivateKey env inputNull length password outNull key
          = ⟨.ERROR_INVALID_PARAMETER, key, []⟩ ∧
        pemImportEddsaPublicKey env inputNull length outNull key
          = ⟨.ERROR_INVALID_PARAMETER, key, []⟩ ∧
        pemImportDhParameters env inputNull length outNull dp
          = ⟨.ERROR_INVALID_PARAMETER, dp, []⟩) := by
  constructor
  · intro hp hk
    refine ⟨?_, ?_, ?_, ?_, ?_, ?_, ?_, ?_, ?_⟩
    · intro he
      unfold pemImportRsaPrivateKey at he ⊢
      rw [if_neg hp, if_neg hk] at he ⊢
      simpa [rsaFreePrivateKey] using finishKey_fail _ _ he
    · intro he
      unfold pemImportRsaPublicKey at he ⊢
      rw [if_neg hp, if_neg hk] at he ⊢
      simpa [rsaFreePublicKey] using finishKey_fail _ _ he
    · intro he
      unfold pemImportDsaPrivateKey at he ⊢
      rw [if_neg hp, if_neg hk] at he ⊢
      simpa [dsaFreePrivateKey] using finishKey_fail _ _ he
    · intro he
      unfold pemImportDsaPublicKey at he ⊢
      rw [if_neg hp, if_neg hk] at he ⊢
      simpa [dsaFreePublicKey] using finishKey_fail _ _ he
    · intro he
      unfold pemImportEcPrivateKey at he ⊢
      rw [if_neg hp, if_neg hk] at he ⊢
      simpa [ecFreePrivateKey] using finishKey_fail _ _ he
    · intro he
      unfold pemImportEcPublicKey at he ⊢
      rw [if_neg hp, if_neg hk] at he ⊢
      simpa [ecFreePublicKey] using finishKey_fail _ _ he
    · intro he
      unfold pemImportEddsaPrivateKey at he ⊢
      rw [if_neg hp, if_neg hk] at he ⊢
      simpa [eddsaFreePrivateKey] using finishKey_fail _ _ he
    · intro he
      unfold pemImportEddsaPublicKey at he ⊢
      rw [if_neg hp, if_neg hk] at he ⊢
      simpa [eddsaFreePublicKey] using finishKey_fail _ _ he
    · intro he
      unfold pemImportDhParameters at he ⊢
      rw [if_neg hp, if_neg hk] at he ⊢
      by_cases hc : (pemImportDhParametersBody env dp).error = .NO_ERROR
      · rw [if_pos hc] at he
        exact absurd hc he
      · rw [if_neg hc]
        simp [mpiFree]
  · intro h
    refine ⟨?_, ?_, ?_, ?_, ?_, ?_, ?_, ?_, ?_⟩ <;>
      simp [pemImportRsaPrivateKey, pemImportRsaPublicKey,
        pemImportDsaPrivateKey, pemImportDsaPublicKey, pemImportEcPrivateKey,
        pemImportEcPublicKey, pemImportEddsaPrivateKey, pemImportEddsaPublicKey,
        pemImportDhParameters, h]

/-- Witness for claim C1 (amended): at a concrete environment where no
label matches, every import call fails and every output key object is
freed; with a NULL input of non-zero length, the call is rejected with the
key untouched. -/
theorem claim_C1_cleanup_on_failure_witness :
    ((pemImportRsaPrivateKey baseEnv false 0 none false [7]).key = [] ∧
      Event.freeKey ∈ (pemImportRsaPrivateKey baseEnv false 0 none false [7]).trace) ∧
    ((pemImportRsaPublicKey baseEnv false 0 false [7]).key = [] ∧
      Event.freeKey ∈ (pemImportRsaPublicKey baseEnv false 0 false [7]).trace) ∧
    ((pemImportDhParameters baseEnv false 0 false ⟨[1], [2]⟩).params = ⟨[], []⟩ ∧
      Event.freeKey ∈ (pemImportDhParameters baseEnv false 0 false ⟨[1], [2]⟩).trace) ∧
    pemImportRsaPrivateKey baseEnv true 1 none false [7]
      = ⟨.ERROR_INVALID_PARAMETER, [7], []⟩ := by
  have h := (claim_C1_cleanup_on_failure baseEnv false 0 none false [7]
    ⟨[1], [2]⟩).1 (by simp) (by simp)
  have h2 := (claim_C1_cleanup_on_failure baseEnv true 1 none false [7]
    ⟨[1], [2]⟩).2 (by simp)
  exact ⟨h.1 (by decide), h.2.1 (by decide), h.2.2.2.2.2.2.2.2 (by decide), h2.1⟩

/-- Counterexample to claim C3 as stated: with encrypted-key support
compiled out and an input matching only the `"ENCRYPTED PRIVATE KEY"`
label, the call fails with `ERROR_DECRYPTION_FAILED` — the very error code
of the DecryptionFailure classification — rather than with any distinct
"encryption unsupported" error kind. -/
theorem claim_C3_counterexample :
    envEncOff.pemEncryptedKeySupport = false ∧
      sizeLabels (pemImportRsaPrivateKey envEncOff false 4 (some "pw")
          false []).trace
        = ["RSA PRIVATE KEY", "PRIVATE KEY", "ENCRYPTED PRIVATE KEY"] ∧
      (pemImportRsaPrivateKey envEncOff false 4 (some "pw") false []).error
        = .ERROR_DECRYPTION_FAILED := by
  refine ⟨?_, ?_, ?_⟩ <;> decide

/-- Claim C3 (amended): when encrypted-private-key support is compiled out
(`PEM_ENCRYPTED_KEY_SUPPORT` disabled) and a private-key import call
matches the generic `"ENCRYPTED PRIVATE KEY"` label, the call fails with
`ERROR_DECRYPTION_FAILED` — the same error code that reports a decryption
failure; the build-disabled case is not given a distinct classification. -/
theorem claim_C3_encrypted_support_disabled (env : Env) (inputNull : Bool)
    (length : Nat) (password : Option String) (keyNull : Bool) (key : KeyData)
    (hp : ¬(inputNull = true ∧ length ≠ 0)) (hk : ¬(keyNull = true))
    (henc : env.pemEncryptedKeySupport = false) :
    ((env.decodeSize "RSA PRIVATE KEY").error ≠ .NO_ERROR →
      (env.decodeSize "PRIVATE KEY").error ≠ .NO_ERROR →
      (env.decodeSize "ENCRYPTED PRIVATE KEY").error = .NO_ERROR →
      (pemImportRsaPrivateKey env inputNull length password keyNull key).error
        = .ERROR_DECRYPTION_FAILED) ∧
    ((env.decodeSize "DSA PRIVATE KEY").error ≠ .NO_ERROR →
      (env.decodeSize "PRIVATE KEY").error ≠ .NO_ERROR →
      (env.decodeSize "ENCRYPTED PRIVATE KEY").error = .NO_ERROR →
      (pemImportDsaPrivateKey env inputNull length password keyNull key).error
        = .ERROR_DECRYPTION_FAILED) ∧
    ((env.decodeSize "EC PRIVATE KEY").error ≠ .NO_ERROR →
      (env.decodeSize "PRIVATE KEY").error ≠ .NO_ERROR →
      (env.decodeSize "ENCRYPTED PRIVATE KEY").error = .NO_ERROR →
      (pemImportEcPrivateKey env inputNull length password keyNull key).error
        = .ERROR_DECRYPTION_FAILED) ∧
    ((env.decodeSize "PRIVATE KEY").error ≠ .NO_ERROR →
      (env.decodeSize "ENCRYPTED PRIVATE KEY").error = .NO_ERROR →
      (pemImportEddsaPrivateKey env inputNull length password keyNull key).error
        = .ERROR_DECRYPTION_FAILED) := by
  refine ⟨?_, ?_, ?_, ?_⟩
  · intro h1 h2 h3
    unfold pemImportRsaPrivateKey
    rw [if_neg hp, if_neg hk, finishKey_error]
    unfold pemImportRsaPrivateKeyBody
    dsimp only
    rw [if_neg h1, if_neg h2, if_pos h3]
    simp [withSize, encryptedPrivBranch, henc]
  · intro h1 h2 h3
    unfold pemImportDsaPrivateKey
    rw [if_neg hp, if_neg hk, finishKey_error]
    unfold pemImportDsaPrivateKeyBody
    dsimp only
    rw [if_neg h1, if_neg h2, if_pos h3]
    simp [withSize, encryptedPrivBranch, henc]
  · intro h1 h2 h3
    unfold pemImportEcPrivateKey
    rw [if_neg hp, if_neg hk, finishKey_error]
    unfold pemImportEcPrivateKeyBody
    dsimp only
    rw [if_neg h1, if_neg h2, if_pos h3]
    simp [withSize, encryptedPrivBranch, henc]
  · intro h1 h2
    unfold pemImportEddsaPrivateKey
    rw [if_neg hp, if_neg hk, finishKey_error]
    unfold pemImportEddsaPrivateKeyBody
    dsimp only
    rw [if_neg h1, if_pos h2]
    simp [withSize, encryptedPrivBranch, henc]

/-- Witness for claim C3 (amended) at the concrete disabled-support
environment. -/
theorem claim_C3_encrypted_support_disabled_witness :
    (pemImportRsaPrivateKey envEncOff false 4 (some "pw") false []).error
        = .ERROR_DECRYPTION_FAILED ∧
      (pemImportEddsaPrivateKey envEncOff false 4 (some "pw") false []).error
        = .ERROR_DECRYPTION_FAILED := by
  have h := claim_C3_encrypted_support_disabled envEncOff false 4 (some "pw")
    false [] (by simp) (by simp) (by decide)
  exact ⟨h.1 (by decide) (by decide) (by decide), h.2.2.2 (by decide) (by decide)⟩

/-- Counterexample to claim C4 as stated: at an input whose
`"DSA PUBLIC KEY"` sizing pass would succeed, `pemImportDsaPublicKey`
never attempts that algorithm-specific label — it attempts only
`"PUBLIC KEY"` and fails with `ERROR_END_OF_FILE`. -/
theorem claim_C4_counterexample :
    ((envOnly "DSA PUBLIC KEY").decodeSize "DSA PUBLIC KEY").error = .NO_ERROR ∧
      sizeLabels (pemImportDsaPublicKey (envOnly "DSA PUBLIC KEY") false 4
          false []).trace = ["PUBLIC KEY"] ∧
      (pemImportDsaPublicKey (envOnly "DSA PUBLIC KEY") false 4 false []).error
        = .ERROR_END_OF_FILE := by
  refine ⟨?_, ?_, ?_⟩ <;> decide

/-- Claim C4 (amended): only `pemImportRsaPublicKey` resolves through an
algorithm-specific public label — it tries `"RSA PUBLIC KEY"` first and
falls back to the generic `"PUBLIC KEY"` label only if the former does not
match; `pemImportDsaPublicKey`, `pemImportEcPublicKey` and
`pemImportEddsaPublicKey` attempt only the generic `"PUBLIC KEY"` label. -/
theorem claim_C4_public_label_resolution (env : Env) (inputNull : Bool)
    (length : Nat) (keyNull : Bool) (key : KeyData)
    (hp : ¬(inputNull = true ∧ length ≠ 0)) (hk : ¬(keyNull = true)) :
    sizeLabels (pemImportRsaPublicKey env inputNull length keyNull key).trace
        = attemptedLabels env rsaPubCandidates ∧
      sizeLabels (pemImportDsaPublicKey env inputNull length keyNull key).trace
        = ["PUBLIC KEY"] ∧
      sizeLabels (pemImportEcPublicKey env inputNull length keyNull key).trace
        = ["PUBLIC KEY"] ∧
      sizeLabels (pemImportEddsaPublicKey env inputNull length keyNull key).trace
        = ["PUBLIC KEY"] := by
  refine ⟨?_, ?_, ?_, ?_⟩
  · unfold pemImportRsaPublicKey
    rw [if_neg hp, if_neg hk, finishKey_sizeLabels]
    exact pemImportRsaPublicKeyBody_sizeLabels env key
  · unfold pemImportDsaPublicKey
    rw [if_neg hp, if_neg hk, finishKey_sizeLabels]
    exact pemImportDsaPublicKeyBody_sizeLabels env key
  · unfold pemImportEcPublicKey
    rw [if_neg hp, if_neg hk, finishKey_sizeLabels]
    exact pemImportEcPublicKeyBody_sizeLabels env key
  · unfold pemImportEddsaPublicKey
    rw [if_neg hp, if_neg hk, finishKey_sizeLabels]
    exact pemImportEddsaPublicKeyBody_sizeLabels env key

/-- Witness for claim C4 (amended) at a concrete environment. -/
theorem claim_C4_public_label_resolution_witness :
    sizeLabels (pemImportRsaPublicKey baseEnv false 0 false []).trace
        = attemptedLabels baseEnv rsaPubCandidates ∧
      sizeLabels (pemImportDsaPublicKey baseEnv false 0 false []).trace
        = ["PUBLIC KEY"] := by
  have h := claim_C4_public_label_resolution baseEnv false 0 false []
    (by simp) (by simp)
  exact ⟨h.1, h.2.1⟩

/-- Claim C6: the two encryption-detection mechanisms are mutually
exclusive per call of `pemImportRsaPrivateKey` — a container matched via
the algorithm-specific legacy label `"RSA PRIVATE KEY"` never reaches
`pkcs5Decrypt` and invokes `pemDecryptMessage` only when the header's
`Proc-Type` field equals `"ENCRYPTED"`; a container matched via the plain
`"PRIVATE KEY"` label undergoes no decryption at all and its payload
passes through unchanged to structural parsing; a container matched via
`"ENCRYPTED PRIVATE KEY"` never reaches `pemDecryptMessage`, and what it
hands to `pkcs5Decrypt` is exactly the encrypted data of the successfully
parsed `EncryptedPrivateKeyInfo` envelope (no header inspection). -/
theorem claim_C6_encryption_paths_exclusive (env : Env) (inputNull : Bool)
    (length : Nat) (password : Option String) (keyNull : Bool) (key : KeyData)
    (hp : ¬(inputNull = true ∧ length ≠ 0)) (hk : ¬(keyNull = true)) :
    ((env.decodeSize "RSA PRIVATE KEY").error = .NO_ERROR →
      (∀ d, Event.pkcs5 d ∉
          (pemImportRsaPrivateKey env inputNull length password keyNull key).trace) ∧
        (Event.pemDecrypt ∈
            (pemImportRsaPrivateKey env inputNull length password keyNull key).trace →
          (env.decodeFill "RSA PRIVATE KEY").header.procType = "ENCRYPTED")) ∧
    ((env.decodeSize "RSA PRIVATE KEY").error ≠ .NO_ERROR →
      (env.decodeSize "PRIVATE KEY").error = .NO_ERROR →
      Event.pemDecrypt ∉
          (pemImportRsaPrivateKey env inputNull length password keyNull key).trace ∧
        (∀ d, Event.pkcs5 d ∉
          (pemImportRsaPrivateKey env inputNull length password keyNull key).trace) ∧
        (∀ nm pl, Event.parseEvt nm pl ∈
            (pemImportRsaPrivateKey env inputNull length password keyNull key).trace →
          nm = "pkcs8ParsePrivateKeyInfo" ∧
            pl = (env.decodeFill "PRIVATE KEY").payload)) ∧
    ((env.decodeSize "RSA PRIVATE KEY").error ≠ .NO_ERROR →
      (env.decodeSize "PRIVATE KEY").error ≠ .NO_ERROR →
      (env.decodeSize "ENCRYPTED PRIVATE KEY").error = .NO_ERROR →
      Event.pemDecrypt ∉
          (pemImportRsaPrivateKey env inputNull length password keyNull key).trace ∧
        (∀ d, Event.pkcs5 d ∈
            (pemImportRsaPrivateKey env inputNull length password keyNull key).trace →
          (env.pkcs8ParseEncryptedPrivateKeyInfo
              (env.decodeFill "ENCRYPTED PRIVATE KEY").payload).error = .NO_ERROR ∧
            d = (env.pkcs8ParseEncryptedPrivateKeyInfo
                (env.decodeFill "ENCRYPTED PRIVATE KEY").payload).info.encryptedData)) := by
  refine ⟨?_, ?_, ?_⟩
  · intro h1
    unfold pemImportRsaPrivateKey pemImportRsaPrivateKeyBody
    dsimp only
    simp only [if_neg hp, if_neg hk, if_pos h1]
    constructor
    · intro d
      rw [mem_finishKey _ _ _ (by simp), mem_withSize]
      simp [legacyPrivBranch_no_pkcs5 env "RSA PRIVATE KEY"
        "pkcs8ParseRsaPrivateKey" env.pkcs8ParseRsaPrivateKey
        env.pkcs8ImportRsaPrivateKey password key
        (env.decodeSize "RSA PRIVATE KEY").size d]
    · intro hmem
      rw [mem_finishKey _ _ _ (by simp), mem_withSize] at hmem
      rcases hmem with h | h
      · exact absurd h (by simp)
      · exact legacyPrivBranch_pemDecrypt env "RSA PRIVATE KEY"
          "pkcs8ParseRsaPrivateKey" env.pkcs8ParseRsaPrivateKey
          env.pkcs8ImportRsaPrivateKey password key
          (env.decodeSize "RSA PRIVATE KEY").size h
  · intro h1 h2
    unfold pemImportRsaPrivateKey pemImportRsaPrivateKeyBody
    dsimp only
    simp only [if_neg hp, if_neg hk, if_neg h1, if_pos h2]
    have hnd := parseImportBranch_no_decrypt env "PRIVATE KEY"
      "pkcs8ParsePrivateKeyInfo" env.pkcs8ParsePrivateKeyInfo
      env.pkcs8ImportRsaPrivateKey key (env.decodeSize "PRIVATE KEY").size
    refine ⟨?_, ?_, ?_⟩
    · rw [mem_finishKey _ _ _ (by simp), mem_withSize, mem_withSize]
      simp [(hnd []).1]
    · intro d
      rw [mem_finishKey _ _ _ (by simp), mem_withSize, mem_withSize]
      simp [(hnd d).2]
    · intro nm pl hmem
      rw [mem_finishKey _ _ _ (by simp), mem_withSize, mem_withSize] at hmem
      rcases hmem with h | h | h
      · exact absurd h (by simp)
      · exact absurd h (by simp)
      · exact parseImportBranch_parse env "PRIVATE KEY"
          "pkcs8ParsePrivateKeyInfo" env.pkcs8ParsePrivateKeyInfo
          env.pkcs8ImportRsaPrivateKey key (env.decodeSize "PRIVATE KEY").size
          nm pl h
  · intro h1 h2 h3
    unfold pemImportRsaPrivateKey pemImportRsaPrivateKeyBody
    dsimp only
    simp only [if_neg hp, if_neg hk, if_neg h1, if_neg h2, if_pos h3]
    constructor
    · rw [mem_finishKey _ _ _ (by simp), mem_withSize, mem_withSize, mem_withSize]
      simp [encryptedPrivBranch_no_pemDecrypt env env.pkcs8ImportRsaPrivateKey
        password key (env.decodeSize "ENCRYPTED PRIVATE KEY").size]
    · intro d hmem
      rw [mem_finishKey _ _ _ (by simp), mem_withSize, mem_withSize,
        mem_withSize] at hmem
      rcases hmem with h | h | h | h
      · exact absurd h (by simp)
      · exact absurd h (by simp)
      · exact absurd h (by simp)
      · exact encryptedPrivBranch_pkcs5 env env.pkcs8ImportRsaPrivateKey
          password key (env.decodeSize "ENCRYPTED PRIVATE KEY").size d h

/-- Witness for claim C6 at concrete environments matching, in turn, the
legacy, plain and encrypted-wrapper labels. -/
theorem claim_C6_encryption_paths_exclusive_witness :
    Event.pkcs5 [5] ∉
        (pemImportRsaPrivateKey (envOnly "RSA PRIVATE KEY") false 0 (some "pw")
          false []).trace ∧
      Event.pemDecrypt ∉
        (pemImportRsaPrivateKey (envOnly "PRIVATE KEY") false 0 (some "pw")
          false []).trace ∧
      Event.pemDecrypt ∉
        (pemImportRsaPrivateKey (envOnly "ENCRYPTED PRIVATE KEY") false 0
          (some "pw") false []).trace := by
  refine ⟨?_, ?_, ?_⟩
  · exact ((claim_C6_encryption_paths_exclusive (envOnly "RSA PRIVATE KEY")
      false 0 (some "pw") false [] (by simp) (by simp)).1 (by decide)).1 [5]
  · exact ((claim_C6_encryption_paths_exclusive (envOnly "PRIVATE KEY")
      false 0 (some "pw") false [] (by simp) (by simp)).2.1 (by decide)
        (by decide)).1
  · exact ((claim_C6_encryption_paths_exclusive (envOnly "ENCRYPTED PRIVATE KEY")
      false 0 (some "pw") false [] (by simp) (by simp)).2.2 (by decide)
        (by decide) (by decide)).1

/-- Concrete environment in which the generic `"PRIVATE KEY"` label
matches and the parsed algorithm identifier is unrecognized. -/
def envUnknownAlg : Env :=
  { envOnly "PRIVATE KEY" with
    x509GetPublicKeyType := fun _ => .X509_KEY_TYPE_UNKNOWN }

/-- Claim C10: `pemGetPrivateKeyType` classifies by label alone for the
algorithm-specific labels — when the sizing pass succeeds for
`"RSA PRIVATE KEY"`, `"DSA PRIVATE KEY"` or `"EC PRIVATE KEY"` (in the
code's priority order) it returns `NO_ERROR` with the corresponding key
type and its trace holds nothing but the sizing attempts (no allocation,
no filling decode, no structural parse, so it succeeds even when the
payload is encrypted or malformed); only the generic `"PRIVATE KEY"` label
triggers payload parsing, with `ERROR_WRONG_IDENTIFIER` when the parsed
algorithm identifier is unrecognized. -/
theorem claim_C10_get_private_key_type (env : Env) (inputNull : Bool)
    (length : Nat) (keyTypeNull : Bool) (kt0 : X509KeyType)
    (hp : ¬(inputNull = true ∧ length ≠ 0)) (hk : ¬(keyTypeNull = true)) :
    ((env.decodeSize "RSA PRIVATE KEY").error = .NO_ERROR →
      pemGetPrivateKeyType env inputNull length keyTypeNull kt0
        = ⟨.NO_ERROR, .X509_KEY_TYPE_RSA, [.sizeAttempt "RSA PRIVATE KEY"]⟩) ∧
    ((env.decodeSize "RSA PRIVATE KEY").error ≠ .NO_ERROR →
      (env.decodeSize "DSA PRIVATE KEY").error = .NO_ERROR →
      pemGetPrivateKeyType env inputNull length keyTypeNull kt0
        = ⟨.NO_ERROR, .X509_KEY_TYPE_DSA,
            [.sizeAttempt "RSA PRIVATE KEY", .sizeAttempt "DSA PRIVATE KEY"]⟩) ∧
    ((env.decodeSize "RSA PRIVATE KEY").error ≠ .NO_ERROR →
      (env.decodeSize "DSA PRIVATE KEY").error ≠ .NO_ERROR →
      (env.decodeSize "EC PRIVATE KEY").error = .NO_ERROR →
      pemGetPrivateKeyType env inputNull length keyTypeNull kt0
        = ⟨.NO_ERROR, .X509_KEY_TYPE_EC,
            [.sizeAttempt "RSA PRIVATE KEY", .sizeAttempt "DSA PRIVATE KEY",
              .sizeAttempt "EC PRIVATE KEY"]⟩) ∧
    ((env.decodeSize "RSA PRIVATE KEY").error ≠ .NO_ERROR →
      (env.decodeSize "DSA PRIVATE KEY").error ≠ .NO_ERROR →
      (env.decodeSize "EC PRIVATE KEY").error ≠ .NO_ERROR →
      (env.decodeSize "PRIVATE KEY").error = .NO_ERROR →
      env.allocOk (env.decodeSize "PRIVATE KEY").size = true →
      (env.decodeFill "PRIVATE KEY").error = .NO_ERROR →
      Event.parseEvt "pkcs8ParsePrivateKeyInfo" (env.decodeFill "PRIVATE KEY").payload
          ∈ (pemGetPrivateKeyType env inputNull length keyTypeNull kt0).trace ∧
        ((env.pkcs8ParsePrivateKeyInfo (env.decodeFill "PRIVATE KEY").payload).error
            = .NO_ERROR →
          env.x509GetPublicKeyType
              (env.pkcs8ParsePrivateKeyInfo
                (env.decodeFill "PRIVATE KEY").payload).info
            = .X509_KEY_TYPE_UNKNOWN →
          (pemGetPrivateKeyType env inputNull length keyTypeNull kt0).error
              = .ERROR_WRONG_IDENTIFIER ∧
            (pemGetPrivateKeyType env inputNull length keyTypeNull kt0).keyType
              = .X509_KEY_TYPE_UNKNOWN)) := by
  refine ⟨?_, ?_, ?_, ?_⟩
  · intro h1
    unfold pemGetPrivateKeyType
    rw [if_neg hp, if_neg hk]
    dsimp only
    rw [if_pos h1]
  · intro h1 h2
    unfold pemGetPrivateKeyType
    rw [if_neg hp, if_neg hk]
    dsimp only
    rw [if_neg h1, if_pos h2]
  · intro h1 h2 h3
    unfold pemGetPrivateKeyType
    rw [if_neg hp, if_neg hk]
    dsimp only
    rw [if_neg h1, if_neg h2, if_pos h3]
  · intro h1 h2 h3 h4 halloc hfill
    unfold pemGetPrivateKeyType
    rw [if_neg hp, if_neg hk]
    dsimp only
    rw [if_neg h1, if_neg h2, if_neg h3, if_pos h4, if_pos halloc, if_pos hfill]
    constructor
    · repeat' split
      all_goals simp
    · intro hparse htype
      rw [if_pos hparse, if_pos htype]
      exact ⟨rfl, htype⟩

/-- Witness for claim C10 at concrete environments: an input classified by
the `"RSA PRIVATE KEY"` label alone, and a generic `"PRIVATE KEY"` input
whose algorithm identifier is unrecognized. -/
theorem claim_C10_get_private_key_type_witness :
    pemGetPrivateKeyType (envOnly "RSA PRIVATE KEY") false 0 false
        .X509_KEY_TYPE_UNKNOWN
      = ⟨.NO_ERROR, .X509_KEY_TYPE_RSA, [.sizeAttempt "RSA PRIVATE KEY"]⟩ ∧
    (pemGetPrivateKeyType envUnknownAlg false 0 false
        .X509_KEY_TYPE_UNKNOWN).error = .ERROR_WRONG_IDENTIFIER := by
  constructor
  · exact (claim_C10_get_private_key_type (envOnly "RSA PRIVATE KEY") false 0
      false .X509_KEY_TYPE_UNKNOWN (by simp) (by simp)).1 (by decide)
  · exact (((claim_C10_get_private_key_type envUnknownAlg false 0 false
      .X509_KEY_TYPE_UNKNOWN (by simp) (by simp)).2.2.2 (by decide) (by decide)
        (by decide) (by decide) (by decide) (by decide)).2 (by decide)
          (by decide)).1

/-- Helper: appending one event does not change a non-empty trace's head. -/
lemma head_append_of_some (l : List Event) (x e : Event)
    (h : l.head? = some e) : (l ++ [x]).head? = some e := by
  cases l with
  | nil => simp at h
  | cons a t => simpa using h

/-- Claim C9: for every import and key-type function in the module, the
parameter check rejects with `ERROR_INVALID_PARAMETER` exactly when the
input is NULL with a non-zero length or the required output pointer is
NULL (leaving the output untouched and calling no collaborator); a
NULL-input/zero-length call is not rejected — it proceeds to label
resolution (its first collaborator call is the first sizing pass) and,
with the armor decoder failing on the empty input, fails with
`ERROR_END_OF_FILE`. -/
theorem claim_C9_parameter_checks (env : Env) (inputNull : Bool)
    (length : Nat) (password : Option String) (outNull : Bool) (key : KeyData)
    (dp : DhParameters) (kt0 : X509KeyType) :
    ((inputNull = true ∧ length ≠ 0) ∨ outNull = true →
      pemImportCertificate env inputNull length outNull = (⟨.ERROR_INVALID_PARAMETER, []⟩ : DecodeCallResult)) ∧
    (¬((inputNull = true ∧ length ≠ 0) ∨ outNull = true) →
      (pemImportCertificate env inputNull length outNull).trace.head? = some (.sizeAttempt "CERTIFICATE")) ∧
    ((inputNull = true ∧ length ≠ 0) ∨ outNull = true →
      pemImportCrl env inputNull length outNull = (⟨.ERROR_INVALID_PARAMETER, []⟩ : DecodeCallResult)) ∧
    (¬((inputNull = true ∧ length ≠ 0) ∨ outNull = true) →
      (pemImportCrl env inputNull length outNull).trace.head? = some (.sizeAttempt "X509 CRL")) ∧
    ((inputNull = true ∧ length ≠ 0) ∨ outNull = true →
      pemImportCsr env inputNull length outNull = (⟨.ERROR_INVALID_PARAMETER, []⟩ : DecodeCallResult)) ∧
    (¬((inputNull = true ∧ length ≠ 0) ∨ outNull = true) →
      (pemImportCsr env inputNull length outNull).trace.head? = some (.sizeAttempt "CERTIFICATE REQUEST")) ∧
    ((inputNull = true ∧ length ≠ 0) ∨ outNull = true →
      pemImportDhParameters env inputNull length outNull dp = (⟨.ERROR_INVALID_PARAMETER, dp, []⟩ : DhResult)) ∧
    (¬((inputNull = true ∧ length ≠ 0) ∨ outNull = true) →
      (pemImportDhParameters env inputNull length outNull dp).trace.head? = some (.sizeAttempt "DH PARAMETERS")) ∧
    ((inputNull = true ∧ length ≠ 0) ∨ outNull = true →
      pemImportRsaPublicKey env inputNull length outNull key = (⟨.ERROR_INVALID_PARAMETER, key, []⟩ : ImportResult)) ∧
    (¬((inputNull = true ∧ length ≠ 0) ∨ outNull = true) →
      (pemImportRsaPublicKey env inputNull length outNull key).trace.head? = some (.sizeAttempt "RSA PUBLIC KEY")) ∧
    ((inputNull = true ∧ length ≠ 0) ∨ outNull = true →
      pemImportRsaPrivateKey env inputNull length password outNull key = (⟨.ERROR_INVALID_PARAMETER, key, []⟩ : ImportResult)) ∧
    (¬((inputNull = true ∧ length ≠ 0) ∨ outNull = true) →
      (pemImportRsaPrivateKey env inputNull length password outNull key).trace.head? = some (.sizeAttempt "RSA PRIVATE KEY")) ∧
    ((inputNull = true ∧ length ≠ 0) ∨ outNull = true →
      pemImportDsaPublicKey env inputNull length outNull key = (⟨.ERROR_INVALID_PARAMETER, key, []⟩ : ImportResult)) ∧
    (¬((inputNull = true ∧ length ≠ 0) ∨ outNull = true) →
      (pemImportDsaPublicKey env inputNull length outNull key).trace.head? = some (.sizeAttempt "PUBLIC KEY")) ∧
    ((inputNull = true ∧ length ≠ 0) ∨ outNull = true →
      pemImportDsaPrivateKey env inputNull length password outNull key = (⟨.ERROR_INVALID_PARAMETER, key, []⟩ : ImportResult)) ∧
    (¬((inputNull = true ∧ length ≠ 0) ∨ outNull = true) →
      (pemImportDsaPrivateKey env inputNull length password outNull key).trace.head? = some (.sizeAttempt "DSA PRIVATE KEY")) ∧
    ((inputNull = true ∧ length ≠ 0) ∨ outNull = true →
      pemImportEcParameters env inputNull length outNull key = (⟨.ERROR_INVALID_PARAMETER, key, []⟩ : ImportResult)) ∧
    (¬((inputNull = true ∧ length ≠ 0) ∨ outNull = true) →
      (pemImportEcParameters env inputNull length outNull key).trace.head? = some (.sizeAttempt "EC PARAMETERS")) ∧
    ((inputNull = true ∧ length ≠ 0) ∨ outNull = true →
      pemImportEcPublicKey env inputNull length outNull key = (⟨.ERROR_INVALID_PARAMETER, key, []⟩ : ImportResult)) ∧
    (¬((inputNull = true ∧ length ≠ 0) ∨ outNull = true) →
      (pemImportEcPublicKey env inputNull length outNull key).trace.head? = some (.sizeAttempt "PUBLIC KEY")) ∧
    ((inputNull = true ∧ length ≠ 0) ∨ outNull = true →
      pemImportEcPrivateKey env inputNull length password outNull key = (⟨.ERROR_INVALID_PARAMETER, key, []⟩ : ImportResult)) ∧
    (¬((inputNull = true ∧ length ≠ 0) ∨ outNull = true) →
      (pemImportEcPrivateKey env inputNull length password outNull key).trace.head? = some (.sizeAttempt "EC PRIVATE KEY")) ∧
    ((inputNull = true ∧ length ≠ 0) ∨ outNull = true →
      pemImportEddsaPublicKey env inputNull length outNull key = (⟨.ERROR_INVALID_PARAMETER, key, []⟩ : ImportResult)) ∧
    (¬((inputNull = true ∧ length ≠ 0) ∨ outNull = true) →
      (pemImportEddsaPublicKey env inputNull length outNull key).trace.head? = some (.sizeAttempt "PUBLIC KEY")) ∧
    ((inputNull = true ∧ length ≠ 0) ∨ outNull = true →
      pemImportEddsaPrivateKey env inputNull length password outNull key = (⟨.ERROR_INVALID_PARAMETER, key, []⟩ : ImportResult)) ∧
    (¬((inputNull = true ∧ length ≠ 0) ∨ outNull = true) →
      (pemImportEddsaPrivateKey env inputNull length password outNull key).trace.head? = some (.sizeAttempt "PRIVATE KEY")) ∧
    ((inputNull = true ∧ length ≠ 0) ∨ outNull = true →
      pemGetPublicKeyType env inputNull length outNull kt0 = (⟨.ERROR_INVALID_PARAMETER, kt0, []⟩ : TypeResult)) ∧
    (¬((inputNull = true ∧ length ≠ 0) ∨ outNull = true) →
      (pemGetPublicKeyType env inputNull length outNull kt0).trace.head? = some (.sizeAttempt "RSA PUBLIC KEY")) ∧
    ((inputNull = true ∧ length ≠ 0) ∨ outNull = true →
      pemGetPrivateKeyType env inputNull length outNull kt0 = (⟨.ERROR_INVALID_PARAMETER, kt0, []⟩ : TypeResult)) ∧
    (¬((inputNull = true ∧ length ≠ 0) ∨ outNull = true) →
      (pemGetPrivateKeyType env inputNull length outNull kt0).trace.head? = some (.sizeAttempt "RSA PRIVATE KEY")) ∧
    (pemImportCertificate nullInputEnv true 0 false).error = .ERROR_END_OF_FILE ∧
    (pemImportCrl nullInputEnv true 0 false).error = .ERROR_END_OF_FILE ∧
    (pemImportCsr nullInputEnv true 0 false).error = .ERROR_END_OF_FILE ∧
    (pemImportDhParameters nullInputEnv true 0 false ⟨[], []⟩).error = .ERROR_END_OF_FILE ∧
    (pemImportRsaPublicKey nullInputEnv true 0 false []).error = .ERROR_END_OF_FILE ∧
    (pemImportRsaPrivateKey nullInputEnv true 0 none false []).error = .ERROR_END_OF_FILE ∧
    (pemImportDsaPublicKey nullInputEnv true 0 false []).error = .ERROR_END_OF_FILE ∧
    (pemImportDsaPrivateKey nullInputEnv true 0 none false []).error = .ERROR_END_OF_FILE ∧
    (pemImportEcParameters nullInputEnv true 0 false []).error = .ERROR_END_OF_FILE ∧
    (pemImportEcPublicKey nullInputEnv true 0 false []).error = .ERROR_END_OF_FILE ∧
    (pemImportEcPrivateKey nullInputEnv true 0 none false []).error = .ERROR_END_OF_FILE ∧
    (pemImportEddsaPublicKey nullInputEnv true 0 false []).error = .ERROR_END_OF_FILE ∧
    (pemImportEddsaPrivateKey nullInputEnv true 0 none false []).error = .ERROR_END_OF_FILE ∧
    (pemGetPublicKeyType nullInputEnv true 0 false .X509_KEY_TYPE_UNKNOWN).error = .ERROR_END_OF_FILE ∧
    (pemGetPrivateKeyType nullInputEnv true 0 false .X509_KEY_TYPE_UNKNOWN).error = .ERROR_END_OF_FILE := by
  refine ⟨?_, ?_, ?_, ?_, ?_, ?_, ?_, ?_, ?_, ?_, ?_, ?_, ?_, ?_, ?_, ?_, ?_, ?_, ?_, ?_, ?_, ?_, ?_, ?_, ?_, ?_, ?_, ?_, ?_, ?_, ?_, ?_, ?_, ?_, ?_, ?_, ?_, ?_, ?_, ?_, ?_, ?_, ?_, ?_, ?_⟩
  · intro h
    rcases h with h | h
    · simp [pemImportCertificate, h]
    · by_cases h2 : inputNull = true ∧ length ≠ 0 <;> simp [pemImportCertificate, h, h2]
  · intro hc
    rw [not_or] at hc
    obtain ⟨hp, hk⟩ := hc
    unfold pemImportCertificate
    rw [if_neg hp, if_neg hk]
    rfl
  · intro h
    rcases h with h | h
    · simp [pemImportCrl, h]
    · by_cases h2 : inputNull = true ∧ length ≠ 0 <;> simp [pemImportCrl, h, h2]
  · intro hc
    rw [not_or] at hc
    obtain ⟨hp, hk⟩ := hc
    unfold pemImportCrl
    rw [if_neg hp, if_neg hk]
    rfl
  · intro h
    rcases h with h | h
    · simp [pemImportCsr, h]
    · by_cases h2 : inputNull = true ∧ length ≠ 0 <;> simp [pemImportCsr, h, h2]
  · intro hc
    rw [not_or] at hc
    obtain ⟨hp, hk⟩ := hc
    unfold pemImportCsr
    rw [if_neg hp, if_neg hk]
    rfl
  · intro h
    rcases h with h | h
    · simp [pemImportDhParameters, h]
    · by_cases h2 : inputNull = true ∧ length ≠ 0 <;> simp [pemImportDhParameters, h, h2]
  · intro hc
    rw [not_or] at hc
    obtain ⟨hp, hk⟩ := hc
    unfold pemImportDhParameters
    rw [if_neg hp, if_neg hk]
    by_cases hcc : (pemImportDhParametersBody env dp).error = .NO_ERROR
    · rw [if_pos hcc]
      exact pemImportDhParametersBody_head env dp
    · rw [if_neg hcc]
      exact head_append_of_some _ _ _ (pemImportDhParametersBody_head env dp)
  · intro h
    rcases h with h | h
    · simp [pemImportRsaPublicKey, h]
    · by_cases h2 : inputNull = true ∧ length ≠ 0 <;> simp [pemImportRsaPublicKey, h, h2]
  · intro hc
    rw [not_or] at hc
    obtain ⟨hp, hk⟩ := hc
    unfold pemImportRsaPublicKey
    rw [if_neg hp, if_neg hk]
    exact finishKey_head _ _ _ (pemImportRsaPublicKeyBody_head env key)
  · intro h
    rcases h with h | h
    · simp [pemImportRsaPrivateKey, h]
    · by_cases h2 : inputNull = true ∧ length ≠ 0 <;> simp [pemImportRsaPrivateKey, h, h2]
  · intro hc
    rw [not_or] at hc
    obtain ⟨hp, hk⟩ := hc
    unfold pemImportRsaPrivateKey
    rw [if_neg hp, if_neg hk]
    exact finishKey_head _ _ _ (pemImportRsaPrivateKeyBody_head env password key)
  · intro h
    rcases h with h | h
    · simp [pemImportDsaPublicKey, h]
    · by_cases h2 : inputNull = true ∧ length ≠ 0 <;> simp [pemImportDsaPublicKey, h, h2]
  · intro hc
    rw [not_or] at hc
    obtain ⟨hp, hk⟩ := hc
    unfold pemImportDsaPublicKey
    rw [if_neg hp, if_neg hk]
    exact finishKey_head _ _ _ (pemImportDsaPublicKeyBody_head env key)
  · intro h
    rcases h with h | h
    · simp [pemImportDsaPrivateKey, h]
    · by_cases h2 : inputNull = true ∧ length ≠ 0 <;> simp [pemImportDsaPrivateKey, h, h2]
  · intro hc
    rw [not_or] at hc
    obtain ⟨hp, hk⟩ := hc
    unfold pemImportDsaPrivateKey
    rw [if_neg hp, if_neg hk]
    exact finishKey_head _ _ _ (pemImportDsaPrivateKeyBody_head env password key)
  · intro h
    rcases h with h | h
    · simp [pemImportEcParameters, h]
    · by_cases h2 : inputNull = true ∧ length ≠ 0 <;> simp [pemImportEcParameters, h, h2]
  · intro hc
    rw [not_or] at hc
    obtain ⟨hp, hk⟩ := hc
    unfold pemImportEcParameters
    rw [if_neg hp, if_neg hk]
    exact finishKey_head _ _ _ (pemImportEcParametersBody_head env key)
  · intro h
    rcases h with h | h
    · simp [pemImportEcPublicKey, h]
    · by_cases h2 : inputNull = true ∧ length ≠ 0 <;> simp [pemImportEcPublicKey, h, h2]
  · intro hc
    rw [not_or] at hc
    obtain ⟨hp, hk⟩ := hc
    unfold pemImportEcPublicKey
    rw [if_neg hp, if_neg hk]
    exact finishKey_head _ _ _ (pemImportEcPublicKeyBody_head env key)
  · intro h
    rcases h with h | h
    · simp [pemImportEcPrivateKey, h]
    · by_cases h2 : inputNull = true ∧ length ≠ 0 <;> simp [pemImportEcPrivateKey, h, h2]
  · intro hc
    rw [not_or] at hc
    obtain ⟨hp, hk⟩ := hc
    unfold pemImportEcPrivateKey
    rw [if_neg hp, if_neg hk]
    exact finishKey_head _ _ _ (pemImportEcPrivateKeyBody_head env password key)
  · intro h
    rcases h with h | h
    · simp [pemImportEddsaPublicKey, h]
    · by_cases h2 : inputNull = true ∧ length ≠ 0 <;> simp [pemImportEddsaPublicKey, h, h2]
  · intro hc
    rw [not_or] at hc
    obtain ⟨hp, hk⟩ := hc
    unfold pemImportEddsaPublicKey
    rw [if_neg hp, if_neg hk]
    exact finishKey_head _ _ _ (pemImportEddsaPublicKeyBody_head env key)
  · intro h
    rcases h with h | h
    · simp [pemImportEddsaPrivateKey, h]
    · by_cases h2 : inputNull = true ∧ length ≠ 0 <;> simp [pemImportEddsaPrivateKey, h, h2]
  · intro hc
    rw [not_or] at hc
    obtain ⟨hp, hk⟩ := hc
    unfold pemImportEddsaPrivateKey
    rw [if_neg hp, if_neg hk]
    exact finishKey_head _ _ _ (pemImportEddsaPrivateKeyBody_head env password key)
  · intro h
    rcases h with h | h
    · simp [pemGetPublicKeyType, h]
    · by_cases h2 : inputNull = true ∧ length ≠ 0 <;> simp [pemGetPublicKeyType, h, h2]
  · intro hc
    rw [not_or] at hc
    obtain ⟨hp, hk⟩ := hc
    unfold pemGetPublicKeyType
    rw [if_neg hp, if_neg hk]
    dsimp only
    repeat' split
    all_goals simp
  · intro h
    rcases h with h | h
    · simp [pemGetPrivateKeyType, h]
    · by_cases h2 : inputNull = true ∧ length ≠ 0 <;> simp [pemGetPrivateKeyType, h, h2]
  · intro hc
    rw [not_or] at hc
    obtain ⟨hp, hk⟩ := hc
    unfold pemGetPrivateKeyType
    rw [if_neg hp, if_neg hk]
    dsimp only
    repeat' split
    all_goals simp
  · decide
  · decide
  · decide
  · decide
  · decide
  · decide
  · decide
  · decide
  · decide
  · decide
  · decide
  · decide
  · decide
  · decide
  · decide

/-- Witness for claim C9: a NULL input with non-zero length is rejected as
`ERROR_INVALID_PARAMETER` with the key untouched, while a non-NULL input
proceeds to its first sizing pass. -/
theorem claim_C9_parameter_checks_witness :
    pemImportCertificate baseEnv true 1 false
        = (⟨.ERROR_INVALID_PARAMETER, []⟩ : DecodeCallResult) ∧
      pemImportRsaPrivateKey baseEnv true 1 none false [7]
        = (⟨.ERROR_INVALID_PARAMETER, [7], []⟩ : ImportResult) ∧
      (pemImportCertificate baseEnv false 5 false).trace.head?
        = some (.sizeAttempt "CERTIFICATE") ∧
      (pemImportRsaPrivateKey baseEnv false 5 none false [7]).trace.head?
        = some (.sizeAttempt "RSA PRIVATE KEY") := by
  have hA := claim_C9_parameter_checks baseEnv true 1 none false [7]
    ⟨[1], [2]⟩ .X509_KEY_TYPE_UNKNOWN
  have hB := claim_C9_parameter_checks baseEnv false 5 none false [7]
    ⟨[1], [2]⟩ .X509_KEY_TYPE_UNKNOWN
  obtain ⟨hA1, _, _, _, _, _, _, _, _, _, hA11, _⟩ := hA
  obtain ⟨_, hB2, _, _, _, _, _, _, _, _, _, hB12, _⟩ := hB
  exact ⟨hA1 (by simp), hA11 (by simp), hB2 (by simp), hB12 (by simp)⟩
